import Mathlib

/-!
# Magnet theory: moment calculator, force solver and field-line tracer

A shallow embedding of `src/Constants.js`, `src/Magnet.js`,
`src/PhysicsEngine.js`, of `drawFieldLines` and `displayForce` in
`src/SceneManager.js`, and of `updateForceDisplay` in `src/UIManager.js`.

Exceptions.  An operation that can throw returns `Except JSError`, or a pair
whose second component is the exception that ended it.  A module reads an
identifier through its own scope: `SceneManager.js` does not import `MU0`, and
`UIManager.js` imports neither `THREE` nor `FerromagneticObject`, so reading
them there throws `ReferenceError`.

Number model.  A JavaScript number is idealised as an exact real number or
NaN (`JSNum`).  Rounding, signed zero and the two infinities are not
modelled: arithmetic on numbers is exact real arithmetic, and NaN is absorbing
as in IEEE 754.  A property read (`N_GRADES[k]`, `dimensions.diameter`) gives a
`JSVal`: `undefined`, a number, or some other (truthy, non-numeric) object.

The `THREE.Vector3`, `THREE.Euler` and `THREE.Quaternion` methods the sources
call are embedded operation by operation, following the three.js library.
-/

namespace MagnetTheory

noncomputable section

/-! ## JavaScript numbers and values -/

/-- A JavaScript number: NaN or an exact real. -/
inductive JSNum where
  | nan : JSNum
  | num : ℝ → JSNum

namespace JSNum

/-- JavaScript `a + b` on numbers. -/
def add : JSNum → JSNum → JSNum
  | num a, num b => num (a + b)
  | _, _ => nan

/-- JavaScript `a - b` on numbers. -/
def sub : JSNum → JSNum → JSNum
  | num a, num b => num (a - b)
  | _, _ => nan

/-- JavaScript `a * b` on numbers. -/
def mul : JSNum → JSNum → JSNum
  | num a, num b => num (a * b)
  | _, _ => nan

/-- JavaScript `a / b` on numbers.  A zero divisor gives a non-finite value in
JavaScript; the model has none and returns `nan` there. -/
def div : JSNum → JSNum → JSNum
  | num a, num b => if b = 0 then nan else num (a / b)
  | _, _ => nan

/-- JavaScript unary minus. -/
def neg : JSNum → JSNum
  | num a => num (-a)
  | nan => nan

instance : Add JSNum := ⟨add⟩
instance : Sub JSNum := ⟨sub⟩
instance : Mul JSNum := ⟨mul⟩
instance : Div JSNum := ⟨div⟩
instance : Neg JSNum := ⟨neg⟩

/-- The function `Math.pow(x, n)` for a natural-number literal exponent `n`. -/
def pow : JSNum → ℕ → JSNum
  | num a, n => num (a ^ n)
  | nan, n => if n = 0 then num 1 else nan

/-- The function `Math.sqrt`. -/
def sqrt : JSNum → JSNum
  | num a => if a < 0 then nan else num (Real.sqrt a)
  | nan => nan

/-- The function `Math.cos`. -/
def cos : JSNum → JSNum
  | num a => num (Real.cos a)
  | nan => nan

/-- The function `Math.sin`. -/
def sin : JSNum → JSNum
  | num a => num (Real.sin a)
  | nan => nan

/-- The constant `Math.PI`. -/
def PI : JSNum := num Real.pi

/-- JavaScript `a < b`: false as soon as one side is NaN. -/
def lt : JSNum → JSNum → Bool
  | num a, num b => decide (a < b)
  | _, _ => false

/-- JavaScript `a === b` on numbers: false as soon as one side is NaN. -/
def strictEq : JSNum → JSNum → Bool
  | num a, num b => decide (a = b)
  | _, _ => false

/-- JavaScript truthiness of a number: neither zero nor NaN. -/
def truthy : JSNum → Bool
  | num a => decide (a ≠ 0)
  | nan => false

/-- JavaScript `a || b` on numbers. -/
def orElse (a b : JSNum) : JSNum := if a.truthy then a else b

/-- JavaScript `a > b`: false as soon as one side is NaN. -/
def gt (a b : JSNum) : Bool := lt b a

/-- The function `Math.max(a, b, c)`: NaN as soon as one argument is NaN. -/
def max3 : JSNum → JSNum → JSNum → JSNum
  | num a, num b, num c => num (max (max a b) c)
  | _, _, _ => nan

/-- The function `Math.pow(x, y)` for a positive exponent `y` that is not an
integer (the sources use 2.5): NaN for a negative base. -/
def rpow : JSNum → ℝ → JSNum
  | num a, y => if a < 0 then nan else num (a ^ y)
  | nan, _ => nan

end JSNum

open JSNum (num nan PI)

/-- The result of a property read: `undefined`, a number, or another object
(a function or object, truthy, whose conversion to a number is NaN). -/
inductive JSVal where
  | undefined : JSVal
  | number : JSNum → JSVal
  | object : JSVal

namespace JSVal

/-- JavaScript conversion to a number, as applied by the arithmetic operators. -/
def toNumber : JSVal → JSNum
  | undefined => nan
  | number x => x
  | object => nan

/-- JavaScript truthiness. -/
def truthy : JSVal → Bool
  | undefined => false
  | number x => x.truthy
  | object => true

end JSVal

/-- A JavaScript exception.  Reading an identifier that the module neither
declares nor imports throws `ReferenceError: name is not defined`. -/
inductive JSError where
  | referenceError (name : String) : JSError

/-! ## three.js vectors, Euler angles and quaternions -/

/-- A `THREE.Vector3`. -/
structure Vec3 where
  x : JSNum
  y : JSNum
  z : JSNum

/-- A `THREE.Euler` with the default axis order 'XYZ' (angles in radians). -/
structure Euler where
  x : JSNum
  y : JSNum
  z : JSNum

/-- A `THREE.Quaternion`. -/
structure Quaternion where
  x : JSNum
  y : JSNum
  z : JSNum
  w : JSNum

namespace Vec3

/-- The vector `new THREE.Vector3()`, equally `new THREE.Vector3(0,0,0)`. -/
def zero : Vec3 := ⟨num 0, num 0, num 0⟩

/-- A vector with real components. -/
def ofReal (x y z : ℝ) : Vec3 := ⟨num x, num y, num z⟩

/-- The method `subVectors(a, b)`. -/
def subVectors (a b : Vec3) : Vec3 := ⟨a.x - b.x, a.y - b.y, a.z - b.z⟩

/-- The method `add(v)`. -/
def add (a v : Vec3) : Vec3 := ⟨a.x + v.x, a.y + v.y, a.z + v.z⟩

/-- The method `multiplyScalar(s)`. -/
def multiplyScalar (a : Vec3) (s : JSNum) : Vec3 := ⟨a.x * s, a.y * s, a.z * s⟩

/-- The method `divideScalar(s)`, which three.js computes as `multiplyScalar(1 / s)`. -/
def divideScalar (a : Vec3) (s : JSNum) : Vec3 := a.multiplyScalar (num 1 / s)

/-- The method `dot(v)`. -/
def dot (a v : Vec3) : JSNum := a.x * v.x + a.y * v.y + a.z * v.z

/-- The method `length()`. -/
def length (a : Vec3) : JSNum := JSNum.sqrt (a.x * a.x + a.y * a.y + a.z * a.z)

/-- The method `normalize()`: `divideScalar(length() || 1)`. -/
def normalize (a : Vec3) : Vec3 := a.divideScalar (a.length.orElse (num 1))

/-- Componentwise negation (the method `negate()`). -/
def neg (a : Vec3) : Vec3 := ⟨-a.x, -a.y, -a.z⟩

/-- The method `sub(v)`. -/
def sub (a v : Vec3) : Vec3 := ⟨a.x - v.x, a.y - v.y, a.z - v.z⟩

/-- The method `lengthSq()`. -/
def lengthSq (a : Vec3) : JSNum := a.x * a.x + a.y * a.y + a.z * a.z

/-- The method `distanceTo(v)`: the square root of `distanceToSquared(v)`. -/
def distanceTo (a v : Vec3) : JSNum :=
  let dx := a.x - v.x
  let dy := a.y - v.y
  let dz := a.z - v.z
  JSNum.sqrt (dx * dx + dy * dy + dz * dz)

end Vec3

/-- The method `Quaternion.setFromEuler` for the axis order 'XYZ'. -/
def Quaternion.setFromEuler (e : Euler) : Quaternion :=
  let c1 := JSNum.cos (e.x / num 2)
  let c2 := JSNum.cos (e.y / num 2)
  let c3 := JSNum.cos (e.z / num 2)
  let s1 := JSNum.sin (e.x / num 2)
  let s2 := JSNum.sin (e.y / num 2)
  let s3 := JSNum.sin (e.z / num 2)
  { x := s1 * c2 * c3 + c1 * s2 * s3
    y := c1 * s2 * c3 - s1 * c2 * s3
    z := c1 * c2 * s3 + s1 * s2 * c3
    w := c1 * c2 * c3 - s1 * s2 * s3 }

/-- The method `Vector3.applyQuaternion(q)`. -/
def Vec3.applyQuaternion (v : Vec3) (q : Quaternion) : Vec3 :=
  let tx := num 2 * (q.y * v.z - q.z * v.y)
  let ty := num 2 * (q.z * v.x - q.x * v.z)
  let tz := num 2 * (q.x * v.y - q.y * v.x)
  { x := v.x + q.w * tx + q.y * tz - q.z * ty
    y := v.y + q.w * ty + q.z * tx - q.x * tz
    z := v.z + q.w * tz + q.x * ty - q.y * tx }

/-- The method `Vector3.applyEuler(euler)`: `applyQuaternion(setFromEuler(euler))`. -/
def Vec3.applyEuler (v : Vec3) (e : Euler) : Vec3 :=
  v.applyQuaternion (Quaternion.setFromEuler e)

/-! ## Constants.js -/

/-- The constant `MU0 = 4 * Math.PI * 1e-7`. -/
def MU0 : JSNum := num 4 * PI * num 1e-7

/-- The own properties of the object literal `N_GRADES`. -/
def N_GRADES : List (String × ℝ) :=
  [("N35", 1.17), ("N38", 1.21), ("N40", 1.25), ("N42", 1.29),
   ("N45", 1.33), ("N48", 1.38), ("N50", 1.41), ("N52", 1.44)]

/-- The property names every object literal inherits from `Object.prototype`;
each of them reads as a function or an object. -/
def objectPrototypeKeys : List String :=
  ["constructor", "__defineGetter__", "__defineSetter__", "hasOwnProperty",
   "__lookupGetter__", "__lookupSetter__", "isPrototypeOf", "propertyIsEnumerable",
   "toString", "valueOf", "__proto__", "toLocaleString"]

/-- The property read `N_GRADES[k]`: an own property, else an inherited one,
else `undefined`. -/
def N_GRADES_get (k : String) : JSVal :=
  match N_GRADES.lookup k with
  | some br => JSVal.number (num br)
  | none => if k ∈ objectPrototypeKeys then JSVal.object else JSVal.undefined

/-! ## Magnet.js -/

/-- The `dimensions` object of a magnet (millimetres); a field that is not set
reads as `undefined`. -/
structure Dimensions where
  diameter : JSVal
  thickness : JSVal
  length : JSVal
  width : JSVal
  height : JSVal
  outerDiameter : JSVal
  innerDiameter : JSVal

/-- The `params` argument of the `Magnet` constructor; `none` is an absent
(undefined) property. -/
structure MagnetParams where
  shape : Option String
  strengthGrade : Option String
  dimensions : Dimensions
  position : Option Vec3
  orientation : Option Euler

/-- JavaScript `s || d` for an optional string: the empty string is falsy. -/
def strOr (s : Option String) (d : String) : String :=
  match s with
  | some v => if v = "" then d else v
  | none => d

/-- The instance fields of a `Magnet` that the computations read. -/
structure Magnet where
  shape : String
  strengthGrade : String
  dimensions : Dimensions
  position : Vec3
  orientation : Euler
  Br : JSVal
  magnetizationDirection : Vec3

/-- The constructor `new Magnet(params)`. -/
def Magnet.new (params : MagnetParams) : Magnet :=
  let strengthGrade := strOr params.strengthGrade "N35"
  { shape := strOr params.shape "disc"
    strengthGrade := strengthGrade
    dimensions := params.dimensions
    position := params.position.getD (Vec3.ofReal 0 0 0)
    orientation := params.orientation.getD ⟨num 0, num 0, num 0⟩
    Br := N_GRADES_get strengthGrade
    magnetizationDirection := Vec3.ofReal 0 1 0 }

/-- The method `Magnet.getVolume()`. -/
def Magnet.getVolume (m : Magnet) : JSNum :=
  if m.shape = "disc" ∨ m.shape = "ring" then
    PI * JSNum.pow (m.dimensions.diameter.toNumber / num 2000) 2
      * (m.dimensions.thickness.toNumber / num 1000)
  else if m.shape = "block" then
    (m.dimensions.length.toNumber / num 1000) * (m.dimensions.width.toNumber / num 1000)
      * (m.dimensions.height.toNumber / num 1000)
  else if m.shape = "sphere" then
    (num 4 / num 3) * PI * JSNum.pow (m.dimensions.diameter.toNumber / num 2000) 3
  else num 0

/-- The method `Magnet.getMagneticMomentVector()`. -/
def Magnet.getMagneticMomentVector (m : Magnet) : Vec3 :=
  let volume := m.getVolume
  if volume.strictEq (num 0) || !m.Br.truthy then Vec3.ofReal 0 0 0
  else
    let M_magnitude := m.Br.toNumber / MU0
    let momentMagnitude := M_magnitude * volume
    let momentVec := m.magnetizationDirection.normalize.multiplyScalar momentMagnitude
    momentVec.applyEuler m.orientation

/-! ## PhysicsEngine.js -/

/-- The method `PhysicsEngine.calculateDipoleDipoleForce(magnet1, magnet2)`. -/
def calculateDipoleDipoleForce (magnet1 magnet2 : Magnet) : Vec3 :=
  let m1 := magnet1.getMagneticMomentVector
  let m2 := magnet2.getMagneticMomentVector
  let rVec := Vec3.subVectors magnet2.position magnet1.position
  let r := rVec.length
  if r.lt (num 1e-6) then Vec3.ofReal 0 0 0
  else
    let rHat := rVec.normalize
    let m1_dot_rHat := m1.dot rHat
    let m2_dot_rHat := m2.dot rHat
    let m1_dot_m2 := m1.dot m2
    let term1 := m2.multiplyScalar m1_dot_rHat
    let term2 := m1.multiplyScalar m2_dot_rHat
    let term3 := rHat.multiplyScalar m1_dot_m2
    let term4 := rHat.multiplyScalar (num (-5) * m1_dot_rHat * m2_dot_rHat)
    let forceVector := (((Vec3.zero.add term1).add term2).add term3).add term4
    forceVector.multiplyScalar ((num 3 * MU0) / (num 4 * PI * JSNum.pow r 4))

/-- The instance fields of a `FerromagneticObject`. -/
structure FerromagneticObject where
  type : String
  dimensions : Dimensions
  position : Vec3
  orientation : Euler

/-- The method `PhysicsEngine.calculateMagnetToFerroForce(magnet, ferroObject, distance)`. -/
def calculateMagnetToFerroForce (magnet : Magnet) (ferroObject : FerromagneticObject)
    (distance : JSNum) : Vec3 :=
  let distance := if distance.lt (num 1e-6) then num 1e-6 else distance
  let Br := magnet.Br
  let area_approx :=
    if magnet.shape = "disc" ∨ magnet.shape = "sphere" then
      PI * JSNum.pow (magnet.dimensions.diameter.toNumber / num 2000) 2
    else if magnet.shape = "block" then
      let l := magnet.dimensions.length.toNumber / num 1000
      let w := magnet.dimensions.width.toNumber / num 1000
      let h := magnet.dimensions.height.toNumber / num 1000
      JSNum.max3 (l * w) (l * h) (w * h)
    else
      PI * JSNum.pow (magnet.dimensions.outerDiameter.toNumber / num 2000) 2
  let m_mag := magnet.getMagneticMomentVector.length
  if m_mag.strictEq (num 0) then Vec3.ofReal 0 0 0
  else
    let forceMagnitude := (JSNum.pow Br.toNumber 2 * area_approx) / (num 2 * MU0)
    let surfaceToSurfaceDistance := distance -
      JSNum.orElse (magnet.dimensions.thickness.toNumber / num 2000)
        (magnet.dimensions.diameter.toNumber / num 2000)
    let surfaceToSurfaceDistance :=
      if surfaceToSurfaceDistance.lt (num 0) then num 0.0001 else surfaceToSurfaceDistance
    let characteristicLength :=
      JSNum.orElse (magnet.dimensions.thickness.toNumber / num 1000)
        (magnet.dimensions.diameter.toNumber / num 1000)
    let forceMagnitude := forceMagnitude /
      JSNum.rpow (num 1 + surfaceToSurfaceDistance / characteristicLength) 2.5
    let direction := (Vec3.subVectors magnet.position ferroObject.position).normalize
    direction.multiplyScalar forceMagnitude

/-! ## SceneManager.js: field lines -/

/-- An element of the scene's `objects` array. -/
inductive SceneObject where
  | magnet : Magnet → SceneObject
  | ferro : FerromagneticObject → SceneObject

/-- The constant `lines`: the number of seeds. -/
def lines : ℕ := 30

/-- The constant `segments`: the most steps a line takes. -/
def segments : ℕ := 50

/-- The constant `stepSize` (metres). -/
def stepSize : JSNum := num 0.002

/-- The constant `maxDist` (metres). -/
def maxDist : JSNum := num 0.3

/-- The identifier `MU0` as the module `SceneManager.js` reads it.  What the
module imports is `THREE`, `OrbitControls`, `Magnet` and `FerromagneticObject`,
and it declares no `MU0`: the read throws `ReferenceError`. -/
def SceneManager.MU0 : Except JSError JSNum := Except.error (JSError.referenceError "MU0")

/-- One pass of the `forEach` body of `getBField`: the field `B` after the
object `obj` has been visited, or the exception the body throws. -/
def addDipoleField (point : Vec3) (B : Vec3) (obj : SceneObject) : Except JSError Vec3 :=
  match obj with
  | SceneObject.magnet o =>
    let m := o.getMagneticMomentVector
    let rVec := Vec3.subVectors point o.position
    let r := rVec.length
    if r.lt (num 1e-4) then Except.ok B
    else
      let rHat := rVec.normalize
      let m_dot_rHat := m.dot rHat
      let term1 := rHat.multiplyScalar (num 3 * m_dot_rHat)
      let term2 := m
      match SceneManager.MU0 with
      | Except.error e => Except.error e
      | Except.ok mu0 =>
        let b_dipole_obj :=
          (term1.sub term2).multiplyScalar (mu0 / (num 4 * PI * JSNum.pow r 3))
        Except.ok (B.add b_dipole_obj)
  | SceneObject.ferro _ => Except.ok B

/-- The call `this.objects.forEach(...)` in `getBField`, from the field `B`
accumulated so far: an exception in the body ends the loop. -/
def forEachObject (point : Vec3) : Vec3 → List SceneObject → Except JSError Vec3
  | B, [] => Except.ok B
  | B, obj :: rest =>
    match addDipoleField point B obj with
    | Except.error e => Except.error e
    | Except.ok B => forEachObject point B rest

/-- The closure `getBField(point)` of `drawFieldLines`, over the scene's objects. -/
def getBField (objects : List SceneObject) (point : Vec3) : Except JSError Vec3 :=
  forEachObject point Vec3.zero objects

/-- The start point of line `i` in `drawFieldLines`. -/
def startPoint (magnet1 : Magnet) (i : ℕ) : Vec3 :=
  let startRadius :=
    JSNum.orElse
      (JSNum.orElse (magnet1.dimensions.diameter.toNumber / num 2000)
        (magnet1.dimensions.width.toNumber / num 2000))
      (num 0.01) * num 0.6
  let startHeightOffset :=
    JSNum.orElse
      (JSNum.orElse (magnet1.dimensions.thickness.toNumber / num 2000)
        (magnet1.dimensions.height.toNumber / num 2000))
      (num 0.005)
  let angle := (num i / num lines) * num 2 * PI
  let startPoint : Vec3 :=
    { x := startRadius * JSNum.cos angle
      y := startHeightOffset *
        (if JSNum.gt magnet1.magnetizationDirection.y (num 0) then num 1 else num (-1))
      z := startRadius * JSNum.sin angle }
  (startPoint.applyEuler magnet1.orientation).add magnet1.position

/-- The inner loop of `drawFieldLines` with `n` iterations left, from the
current point and accumulated length: the points pushed after the start point,
and the exception that ended the loop, if one did. -/
def traceSteps (objects : List SceneObject) (magnet2 : Option Magnet) :
    ℕ → Vec3 → JSNum → List Vec3 × Option JSError
  | 0, _, _ => ([], none)
  | n + 1, currentPoint, totalDist =>
    match getBField objects currentPoint with
    | Except.error e => ([], some e)
    | Except.ok B =>
      if B.lengthSq.strictEq (num 0) then ([], none)
      else
        let dir := B.normalize
        let currentPoint := currentPoint.add (dir.multiplyScalar stepSize)
        let totalDist := totalDist + stepSize
        if JSNum.gt totalDist maxDist then ([currentPoint], none)
        else
          match magnet2 with
          | some m2 =>
            if (currentPoint.distanceTo m2.position).lt
                (JSNum.orElse (m2.dimensions.diameter.toNumber / num 2000) (num 0.01)) then
              ([currentPoint], none)
            else
              let later := traceSteps objects (some m2) n currentPoint totalDist
              (currentPoint :: later.1, later.2)
          | none =>
            let later := traceSteps objects none n currentPoint totalDist
            (currentPoint :: later.1, later.2)

/-- The array `points` of line `i` when its inner loop has ended, by a `break`,
after the last segment, or by an exception. -/
def fieldLinePoints (objects : List SceneObject) (magnet1 : Magnet) (magnet2 : Option Magnet)
    (i : ℕ) : List Vec3 :=
  startPoint magnet1 i ::
    (traceSteps objects magnet2 segments (startPoint magnet1 i) (num 0)).1

/-- The exception that ended the inner loop of line `i`, if one did. -/
def fieldLineError (objects : List SceneObject) (magnet1 : Magnet) (magnet2 : Option Magnet)
    (i : ℕ) : Option JSError :=
  (traceSteps objects magnet2 segments (startPoint magnet1 i) (num 0)).2

/-- The outer loop of `drawFieldLines` over the line indices still to do: the
polylines added to the scene, in order, and the exception that ended the
method, if one did.  A line whose inner loop throws is not added, and no line
after it is drawn. -/
def drawLines (objects : List SceneObject) (magnet1 : Magnet) (magnet2 : Option Magnet) :
    List ℕ → List (List Vec3) × Option JSError
  | [] => ([], none)
  | i :: rest =>
    match fieldLineError objects magnet1 magnet2 i with
    | some e => ([], some e)
    | none =>
      let points := fieldLinePoints objects magnet1 magnet2 i
      let later := drawLines objects magnet1 magnet2 rest
      if points.length > 1 then (points :: later.1, later.2) else later

/-- The method `SceneManager.drawFieldLines(magnet1, magnet2)` for a non-null
`magnet1`: the polylines in the scene when the method ends, in order, and the
exception it throws, if any. -/
def drawFieldLines (objects : List SceneObject) (magnet1 : Magnet) (magnet2 : Option Magnet) :
    List (List Vec3) × Option JSError :=
  drawLines objects magnet1 magnet2 (List.range lines)

/-- The values of `totalDist` at the test `totalDist > maxDist`, in the order
the inner loop of `drawFieldLines` evaluates it, with `n` iterations left. -/
def traceTotalDist (objects : List SceneObject) (magnet2 : Option Magnet) :
    ℕ → Vec3 → JSNum → List JSNum
  | 0, _, _ => []
  | n + 1, currentPoint, totalDist =>
    match getBField objects currentPoint with
    | Except.error _ => []
    | Except.ok B =>
      if B.lengthSq.strictEq (num 0) then []
      else
        let dir := B.normalize
        let currentPoint := currentPoint.add (dir.multiplyScalar stepSize)
        let totalDist := totalDist + stepSize
        if JSNum.gt totalDist maxDist then [totalDist]
        else
          match magnet2 with
          | some m2 =>
            if (currentPoint.distanceTo m2.position).lt
                (JSNum.orElse (m2.dimensions.diameter.toNumber / num 2000) (num 0.01)) then
              [totalDist]
            else totalDist :: traceTotalDist objects (some m2) n currentPoint totalDist
          | none => totalDist :: traceTotalDist objects none n currentPoint totalDist

/-! ## SceneManager.js and UIManager.js: attraction or repulsion -/

/-- The `position` of an element of the scene's `objects` array. -/
def SceneObject.position : SceneObject → Vec3
  | SceneObject.magnet m => m.position
  | SceneObject.ferro f => f.position

/-- The call `objects.find(o => o !== originObject)`, the origin object being
the element of index `originIndex`: the first element at another index. -/
def findOther (objects : List SceneObject) (originIndex : ℕ) : Option SceneObject :=
  ((objects.enum.filter fun q => q.1 ≠ originIndex).head?).map Prod.snd

/-- The value of `isAttraction` in `SceneManager.displayForce(originObject,
forceVector)`, the origin object being `objects[originIndex]`; `none` when the
method returns (or fails) before it computes `isAttraction`. -/
def displayForce (objects : List SceneObject) (originIndex : ℕ) (forceVector : Vec3) :
    Option Bool :=
  match objects[originIndex]? with
  | none => none
  | some originObject =>
    if forceVector.lengthSq.strictEq (num 0) then none
    else
      match findOther objects originIndex with
      | none => none
      | some otherObject =>
        let directionToOther :=
          (Vec3.subVectors otherObject.position originObject.position).normalize
        some (JSNum.gt (forceVector.dot directionToOther) (num 0))

/-- The identifier `THREE` as the module `UIManager.js` reads it.  The module
has one import, `N_GRADES`: the read throws `ReferenceError`. -/
def UIManager.THREE : Except JSError Unit := Except.error (JSError.referenceError "THREE")

/-- The identifier `FerromagneticObject` as the module `UIManager.js` reads it:
not imported either. -/
def UIManager.FerromagneticObject : Except JSError Unit :=
  Except.error (JSError.referenceError "FerromagneticObject")

/-- The text that `UIManager.updateForceDisplay(forceVector, obj1, obj2)` writes
to the force-type display, for non-null arguments, or the exception the method
throws before it writes one.  The magnitude text is written first and is not
part of this result. -/
def updateForceDisplay (forceVector : Vec3) (obj1 obj2 : SceneObject) :
    Except JSError String :=
  match UIManager.THREE with
  | Except.error e => Except.error e
  | Except.ok _ =>
    let directionToObj2 := (Vec3.subVectors obj2.position obj1.position).normalize
    let dotProduct := forceVector.dot directionToObj2
    match UIManager.FerromagneticObject with
    | Except.error e => Except.error e
    | Except.ok _ =>
      match obj2 with
      | SceneObject.ferro _ => Except.ok "Attraction"
      | SceneObject.magnet _ =>
        Except.ok (if JSNum.gt dotProduct (num 0) then "Attraction" else "Repulsion")

/-! ## The closed forms the specification states -/

/-- Scalar times vector, the scalar written on the left. -/
def Vec3.smul (s : JSNum) (v : Vec3) : Vec3 := ⟨s * v.x, s * v.y, s * v.z⟩

/-- The dipole-dipole force as the specification writes it:
`(3 MU0 / (4 pi |r|^4)) [ (m1.rh) m2 + (m2.rh) m1 + (m1.m2) rh - 5 (m1.rh)(m2.rh) rh ]`
with `rh = r / |r|`. -/
def dipoleDipoleFormula (m1 m2 r : Vec3) : Vec3 :=
  let d := r.length
  let rh : Vec3 := ⟨r.x / d, r.y / d, r.z / d⟩
  Vec3.smul ((num 3 * MU0) / (num 4 * PI * JSNum.pow d 4))
    (Vec3.subVectors
      (((Vec3.smul (m1.dot rh) m2).add (Vec3.smul (m2.dot rh) m1)).add
        (Vec3.smul (m1.dot m2) rh))
      (Vec3.smul (num 5 * m1.dot rh * m2.dot rh) rh))

/-- The vector `forceVector` of `calculateDipoleDipoleForce` before its final
scaling, as a function of the two moments and of `rHat`: the sum of `term1` to
`term4`. -/
def forceBracket (m1 m2 rHat : Vec3) : Vec3 :=
  (((Vec3.zero.add (m2.multiplyScalar (m1.dot rHat))).add
    (m1.multiplyScalar (m2.dot rHat))).add
    (rHat.multiplyScalar (m1.dot m2))).add
    (rHat.multiplyScalar (num (-5) * m1.dot rHat * m2.dot rHat))

/-- The value of `surfaceToSurfaceDistance` after its clamp in
`calculateMagnetToFerroForce`, for a numeric (already clamped) distance `d` and
a magnet whose `thickness || diameter` is `c` millimetres. -/
def ferroGap (c d : ℝ) : ℝ := if d - c / 2000 < 0 then 0.0001 else d - c / 2000

/-- The value of `forceMagnitude` at the end of `calculateMagnetToFerroForce`,
for the remanence `br`, the area `A`, `thickness || diameter` equal to `c`
millimetres and the numeric (already clamped) distance `d`. -/
def ferroMagnitude (br A c d : ℝ) : ℝ :=
  br ^ 2 * A / (2 * (4 * Real.pi * 1e-7)) / (1 + ferroGap c d / (c / 1000)) ^ (2.5 : ℝ)

/-- The local axis (0,1,0) rotated by `Rx(a) Ry(b) Rz(c)`: the second column of
the rotation matrix of the Euler order XYZ. -/
def rotatedAxis (a b c : ℝ) : ℝ × ℝ × ℝ :=
  (-(Real.cos b * Real.sin c),
   Real.cos a * Real.cos c - Real.sin a * Real.sin b * Real.sin c,
   Real.sin a * Real.cos c + Real.cos a * Real.sin b * Real.sin c)

/-- Rotation about the X axis by the angle `a`. -/
def rotX (a : ℝ) (v : ℝ × ℝ × ℝ) : ℝ × ℝ × ℝ :=
  (v.1, v.2.1 * Real.cos a - v.2.2 * Real.sin a, v.2.1 * Real.sin a + v.2.2 * Real.cos a)

/-- Rotation about the Y axis by the angle `b`. -/
def rotY (b : ℝ) (v : ℝ × ℝ × ℝ) : ℝ × ℝ × ℝ :=
  (v.1 * Real.cos b + v.2.2 * Real.sin b, v.2.1, -(v.1 * Real.sin b) + v.2.2 * Real.cos b)

/-- Rotation about the Z axis by the angle `c`. -/
def rotZ (c : ℝ) (v : ℝ × ℝ × ℝ) : ℝ × ℝ × ℝ :=
  (v.1 * Real.cos c - v.2.1 * Real.sin c, v.1 * Real.sin c + v.2.1 * Real.cos c, v.2.2)

/-- The rotation `Rx(a) Ry(b) Rz(c)` of the Euler order XYZ. -/
def rotateXYZ (a b c : ℝ) (v : ℝ × ℝ × ℝ) : ℝ × ℝ × ℝ := rotX a (rotY b (rotZ c v))

/-- The start point of line `i` in the local frame of a disc of diameter `D` and
thickness `t` (mm), as the specification describes it: at the angle
`2 pi i / 30` around the magnetisation axis, at the radius `0.6 (D/2000)`,
offset by half the thickness along the axis. -/
def localSeed (D t : ℝ) (i : ℕ) : ℝ × ℝ × ℝ :=
  (0.6 * (D / 2000) * Real.cos (2 * Real.pi * i / 30), t / 2000,
   0.6 * (D / 2000) * Real.sin (2 * Real.pi * i / 30))

/-- The inner loop of `drawFieldLines` with the test `totalDist > maxDist`
left out: a line ends through a zero field, the count of segments, or the
termination radius of the second magnet only (or by an exception of
`getBField`). -/
def traceStepsNoMaxDist (objects : List SceneObject) (magnet2 : Option Magnet) :
    ℕ → Vec3 → List Vec3 × Option JSError
  | 0, _ => ([], none)
  | n + 1, currentPoint =>
    match getBField objects currentPoint with
    | Except.error e => ([], some e)
    | Except.ok B =>
      if B.lengthSq.strictEq (num 0) then ([], none)
      else
        let dir := B.normalize
        let currentPoint := currentPoint.add (dir.multiplyScalar stepSize)
        match magnet2 with
        | some m2 =>
          if (currentPoint.distanceTo m2.position).lt
              (JSNum.orElse (m2.dimensions.diameter.toNumber / num 2000) (num 0.01)) then
            ([currentPoint], none)
          else
            let later := traceStepsNoMaxDist objects (some m2) n currentPoint
            (currentPoint :: later.1, later.2)
        | none =>
          let later := traceStepsNoMaxDist objects none n currentPoint
          (currentPoint :: later.1, later.2)

/-! ## Example inputs -/

/-- A `dimensions` object with no field set. -/
def Dimensions.unset : Dimensions :=
  { diameter := JSVal.undefined, thickness := JSVal.undefined, length := JSVal.undefined,
    width := JSVal.undefined, height := JSVal.undefined, outerDiameter := JSVal.undefined,
    innerDiameter := JSVal.undefined }

/-- The dimensions `{ diameter: D, thickness: t }`. -/
def discDimensions (D t : ℝ) : Dimensions :=
  { Dimensions.unset with diameter := JSVal.number (num D), thickness := JSVal.number (num t) }

/-- The dimensions `{ length: l, width: w, height: h }`. -/
def blockDimensions (l w h : ℝ) : Dimensions :=
  { Dimensions.unset with
    length := JSVal.number (num l), width := JSVal.number (num w),
    height := JSVal.number (num h) }

/-- The dimensions `{ diameter: D }`. -/
def sphereDimensions (D : ℝ) : Dimensions :=
  { Dimensions.unset with diameter := JSVal.number (num D) }

/-- Constructor parameters with every property given. -/
def magnetParams (shape grade : String) (dims : Dimensions) (pos : Vec3) (o : Euler) :
    MagnetParams :=
  { shape := some shape, strengthGrade := some grade, dimensions := dims,
    position := some pos, orientation := some o }

/-- The Euler angles `new THREE.Euler(a, b, c)` for real angles. -/
def Euler.ofReal (a b c : ℝ) : Euler := ⟨num a, num b, num c⟩

/-- The dimensions `{ outerDiameter: o, innerDiameter: i, thickness: t }` that the
form of the user interface gives a ring. -/
def ringDimensions (o i t : ℝ) : Dimensions :=
  { Dimensions.unset with
    outerDiameter := JSVal.number (num o), innerDiameter := JSVal.number (num i),
    thickness := JSVal.number (num t) }

/-- The vector with the components of a real triple. -/
def Vec3.ofTriple (v : ℝ × ℝ × ℝ) : Vec3 := Vec3.ofReal v.1 v.2.1 v.2.2

/-- The N35 disc of diameter 20 mm and thickness 5 mm, at the position `pos`
with the orientation `o`. -/
def exampleDisc (pos : Vec3) (o : Euler) : Magnet :=
  Magnet.new (magnetParams "disc" "N35" (discDimensions 20 5) pos o)

/-- The N35 ring as the form of the user interface configures it (outer
diameter 20 mm, inner diameter 10 mm, thickness 5 mm, no `diameter`), at the
position `pos` with the identity orientation. -/
def exampleRing (pos : Vec3) : Magnet :=
  Magnet.new (magnetParams "ring" "N35" (ringDimensions 20 10 5) pos (Euler.ofReal 0 0 0))

/-- A disc of diameter 20 mm and thickness 5 mm whose grade "N99" is not in the
grade table, at the position `pos` with the identity orientation. -/
def exampleUnknownGrade (pos : Vec3) : Magnet :=
  Magnet.new (magnetParams "disc" "N99" (discDimensions 20 5) pos (Euler.ofReal 0 0 0))

/-- An N35 disc of diameter 20 mm and thickness 0, at the position `pos` with
the identity orientation. -/
def exampleFlatDisc (pos : Vec3) : Magnet :=
  Magnet.new (magnetParams "disc" "N35" (discDimensions 20 0) pos (Euler.ofReal 0 0 0))

/-- An N35 disc of diameter 0.1 mm and thickness 0.1 mm, at the origin with the
identity orientation: its start points lie less than 1e-4 m from its centre. -/
def exampleTinyDisc : Magnet :=
  Magnet.new (magnetParams "disc" "N35" (discDimensions 0.1 0.1) (Vec3.ofReal 0 0 0)
    (Euler.ofReal 0 0 0))

/-- A steel plate 50 mm by 50 mm by 10 mm, as the form of the user interface
configures it, at the position `pos`. -/
def examplePlate (pos : Vec3) : FerromagneticObject :=
  { type := "steel-plate"
    dimensions := { Dimensions.unset with
      length := JSVal.number (num 50), width := JSVal.number (num 50),
      thickness := JSVal.number (num 10) }
    position := pos
    orientation := Euler.ofReal 0 0 0 }

/-- The N35 block 20 mm by 10 mm by 5 mm, as the form of the user interface
configures it, at the position `pos` with the identity orientation. -/
def exampleBlock (pos : Vec3) : Magnet :=
  Magnet.new (magnetParams "block" "N35" (blockDimensions 20 10 5) pos (Euler.ofReal 0 0 0))

/-! ## Arithmetic of the number model -/

namespace JSNum

@[simp] theorem num_add_num (a b : ℝ) : num a + num b = num (a + b) := rfl
@[simp] theorem num_sub_num (a b : ℝ) : num a - num b = num (a - b) := rfl
@[simp] theorem num_mul_num (a b : ℝ) : num a * num b = num (a * b) := rfl
@[simp] theorem neg_num (a : ℝ) : -(num a) = num (-a) := rfl
@[simp] theorem neg_nan : -(nan) = nan := rfl
@[simp] theorem nan_add (a : JSNum) : nan + a = nan := rfl
@[simp] theorem add_nan (a : JSNum) : a + nan = nan := by cases a <;> rfl
@[simp] theorem nan_sub (a : JSNum) : nan - a = nan := rfl
@[simp] theorem sub_nan (a : JSNum) : a - nan = nan := by cases a <;> rfl
@[simp] theorem nan_mul (a : JSNum) : nan * a = nan := rfl
@[simp] theorem mul_nan (a : JSNum) : a * nan = nan := by cases a <;> rfl
@[simp] theorem nan_div (a : JSNum) : nan / a = nan := rfl
@[simp] theorem div_nan (a : JSNum) : a / nan = nan := by cases a <;> rfl

theorem num_div_num (a b : ℝ) : num a / num b = if b = 0 then nan else num (a / b) := rfl

@[simp] theorem num_div_num_of_ne (a : ℝ) {b : ℝ} (h : b ≠ 0) : num a / num b = num (a / b) := by
  rw [num_div_num, if_neg h]

@[simp] theorem pow_num (a : ℝ) (n : ℕ) : pow (num a) n = num (a ^ n) := rfl
@[simp] theorem pow_nan_succ (n : ℕ) : pow nan (n + 1) = nan := rfl
@[simp] theorem sqrt_nan : sqrt nan = nan := rfl
theorem sqrt_num (a : ℝ) : sqrt (num a) = if a < 0 then nan else num (Real.sqrt a) := rfl
@[simp] theorem sqrt_num_of_nonneg {a : ℝ} (h : 0 ≤ a) : sqrt (num a) = num (Real.sqrt a) := by
  rw [sqrt_num, if_neg (not_lt.mpr h)]
@[simp] theorem cos_num (a : ℝ) : cos (num a) = num (Real.cos a) := rfl
@[simp] theorem sin_num (a : ℝ) : sin (num a) = num (Real.sin a) := rfl
@[simp] theorem lt_num (a b : ℝ) : lt (num a) (num b) = decide (a < b) := rfl
@[simp] theorem nan_lt (a : JSNum) : lt nan a = false := rfl
@[simp] theorem lt_nan (a : JSNum) : lt a nan = false := by cases a <;> rfl
@[simp] theorem strictEq_num (a b : ℝ) : strictEq (num a) (num b) = decide (a = b) := rfl
@[simp] theorem nan_strictEq (a : JSNum) : strictEq nan a = false := rfl
@[simp] theorem truthy_num (a : ℝ) : truthy (num a) = decide (a ≠ 0) := rfl
@[simp] theorem truthy_nan : truthy nan = false := rfl

end JSNum

/-! ## Lemmas on the grade table, vectors and rotations -/

theorem N_GRADES_lookup_pos {g : String} {br : ℝ} (h : N_GRADES.lookup g = some br) : 0 < br := by
  simp only [N_GRADES, List.lookup] at h
  repeat (first | (split at h; · simp at h; rw [← h]; norm_num) | simp at h)

theorem N_GRADES_get_of_lookup {g : String} {br : ℝ} (h : N_GRADES.lookup g = some br) :
    N_GRADES_get g = JSVal.number (num br) := by
  simp [N_GRADES_get, h]

theorem Magnet.new_Br (p : MagnetParams) :
    (Magnet.new p).Br = N_GRADES_get (Magnet.new p).strengthGrade := rfl

theorem Magnet.new_magnetizationDirection (p : MagnetParams) :
    (Magnet.new p).magnetizationDirection = Vec3.ofReal 0 1 0 := rfl

theorem mu0_pos : (0 : ℝ) < 4 * Real.pi * 1e-7 := by
  have := Real.pi_pos
  positivity

theorem MU0_eq : MU0 = num (4 * Real.pi * 1e-7) := by
  simp [MU0, PI]

theorem sq_sum_nonneg (x y z : ℝ) : 0 ≤ x * x + y * y + z * z := by
  nlinarith [mul_self_nonneg x, mul_self_nonneg y, mul_self_nonneg z]

theorem Vec3.length_ofReal (x y z : ℝ) :
    (Vec3.ofReal x y z).length = num (Real.sqrt (x * x + y * y + z * z)) := by
  simp [Vec3.length, Vec3.ofReal, sq_sum_nonneg x y z]

theorem Vec3.length_scaled_unit (M x y z : ℝ) (h : x * x + y * y + z * z = 1) :
    (Vec3.ofReal (M * x) (M * y) (M * z)).length = num |M| := by
  rw [Vec3.length_ofReal]
  have : M * x * (M * x) + M * y * (M * y) + M * z * (M * z) = M ^ 2 := by
    linear_combination M ^ 2 * h
  rw [this, Real.sqrt_sq_eq_abs]

theorem rotateXYZ_axis (a b c : ℝ) : rotateXYZ a b c (0, 1, 0) = rotatedAxis a b c := by
  simp only [rotateXYZ, rotX, rotY, rotZ, rotatedAxis, Prod.mk.injEq]
  refine ⟨?_, ?_, ?_⟩ <;> ring

theorem rotateXYZ_sq (a b c : ℝ) (v : ℝ × ℝ × ℝ) :
    (rotateXYZ a b c v).1 * (rotateXYZ a b c v).1
      + (rotateXYZ a b c v).2.1 * (rotateXYZ a b c v).2.1
      + (rotateXYZ a b c v).2.2 * (rotateXYZ a b c v).2.2
      = v.1 * v.1 + v.2.1 * v.2.1 + v.2.2 * v.2.2 := by
  have HA := Real.sin_sq_add_cos_sq a
  have HB := Real.sin_sq_add_cos_sq b
  have HC := Real.sin_sq_add_cos_sq c
  obtain ⟨x, y, z⟩ := v
  simp only [rotateXYZ, rotX, rotY, rotZ]
  linear_combination
    ((y * Real.cos c + x * Real.sin c) ^ 2
      + (z * Real.cos b - (x * Real.cos c - y * Real.sin c) * Real.sin b) ^ 2) * HA
    + (z ^ 2 + (x * Real.cos c - y * Real.sin c) ^ 2) * HB + (x ^ 2 + y ^ 2) * HC

theorem rotatedAxis_unit (a b c : ℝ) :
    (rotatedAxis a b c).1 * (rotatedAxis a b c).1
      + (rotatedAxis a b c).2.1 * (rotatedAxis a b c).2.1
      + (rotatedAxis a b c).2.2 * (rotatedAxis a b c).2.2 = 1 := by
  rw [← rotateXYZ_axis, rotateXYZ_sq]
  norm_num

theorem Vec3.normalize_axis : (Vec3.ofReal 0 1 0).normalize = Vec3.ofReal 0 1 0 := by
  simp [Vec3.normalize, Vec3.length, Vec3.ofReal, Vec3.divideScalar, Vec3.multiplyScalar,
    JSNum.orElse]

theorem Vec3.applyEuler_ofReal (x y z a b c : ℝ) :
    (Vec3.ofReal x y z).applyEuler ⟨num a, num b, num c⟩ =
      Vec3.ofReal (rotateXYZ a b c (x, y, z)).1 (rotateXYZ a b c (x, y, z)).2.1
        (rotateXYZ a b c (x, y, z)).2.2 := by
  have hca : Real.cos a = 2 * Real.cos (a / 2) ^ 2 - 1 := by
    rw [← Real.cos_two_mul]; congr 1; ring
  have hsa : Real.sin a = 2 * Real.sin (a / 2) * Real.cos (a / 2) := by
    rw [← Real.sin_two_mul]; congr 1; ring
  have hcb : Real.cos b = 2 * Real.cos (b / 2) ^ 2 - 1 := by
    rw [← Real.cos_two_mul]; congr 1; ring
  have hsb : Real.sin b = 2 * Real.sin (b / 2) * Real.cos (b / 2) := by
    rw [← Real.sin_two_mul]; congr 1; ring
  have hcc : Real.cos c = 2 * Real.cos (c / 2) ^ 2 - 1 := by
    rw [← Real.cos_two_mul]; congr 1; ring
  have hsc : Real.sin c = 2 * Real.sin (c / 2) * Real.cos (c / 2) := by
    rw [← Real.sin_two_mul]; congr 1; ring
  have H1 := Real.sin_sq_add_cos_sq (a / 2)
  have H2 := Real.sin_sq_add_cos_sq (b / 2)
  have H3 := Real.sin_sq_add_cos_sq (c / 2)
  have hdiv : ∀ t : ℝ, num t / num 2 = num (t / 2) := fun t =>
    JSNum.num_div_num_of_ne t two_ne_zero
  simp only [Vec3.applyEuler, Vec3.applyQuaternion, Quaternion.setFromEuler, Vec3.ofReal,
    rotateXYZ, rotX, rotY, rotZ, hdiv, JSNum.cos_num, JSNum.sin_num,
    JSNum.num_mul_num, JSNum.num_add_num, JSNum.num_sub_num, Vec3.mk.injEq, JSNum.num.injEq]
  rw [hca, hsa, hcb, hsb, hcc, hsc]
  generalize Real.cos (a / 2) = c1 at *
  generalize Real.sin (a / 2) = s1 at *
  generalize Real.cos (b / 2) = c2 at *
  generalize Real.sin (b / 2) = s2 at *
  generalize Real.cos (c / 2) = c3 at *
  generalize Real.sin (c / 2) = s3 at *
  refine ⟨?_, ?_, ?_⟩
  · linear_combination
      ((2) * s2 ^ 2 * c3 * s3 * y + (-2) * s2 ^ 2 * c3 ^ 2 * x + (2) * c2 * s2 * s3 ^ 2 * z
      + (2) * c2 * s2 * c3 ^ 2 * z + (-2) * c2 ^ 2 * s3 ^ 2 * x + (-2) * c2 ^ 2 * c3 * s3 * y) * H1
      + ((2) * c3 * s3 * y + (-2) * c3 ^ 2 * x) * H2
      + ((2) * c2 * s2 * z + (-2) * c2 ^ 2 * x) * H3
  · linear_combination
      ((-2) * s2 ^ 2 * c3 * s3 * x + (-2) * s2 ^ 2 * c3 ^ 2 * y + (-2) * c2 ^ 2 * c3 * s3 * x
      + (-2) * c2 ^ 2 * c3 ^ 2 * y) * H1
      + ((-2) * c3 * s3 * x + (-2) * c3 ^ 2 * y + (2) * c1 * s1 * s3 ^ 2 * z
      + (2) * c1 * s1 * c3 ^ 2 * z + (-2) * c1 ^ 2 * s3 ^ 2 * y + (4) * c1 ^ 2 * c3 * s3 * x
      + (2) * c1 ^ 2 * c3 ^ 2 * y) * H2
      + ((2) * c1 * s1 * z + (-4) * c1 * s1 * c2 * s2 * x + (-4) * c1 * s1 * c2 ^ 2 * z
      + (-2) * c1 ^ 2 * y) * H3
  · linear_combination
      ((-2) * c2 * s2 * s3 ^ 2 * x + (-4) * c2 * s2 * c3 * s3 * y + (2) * c2 * s2 * c3 ^ 2 * x
      + (-2) * c2 ^ 2 * s3 ^ 2 * z + (-2) * c2 ^ 2 * c3 ^ 2 * z) * H1
      + ((-2) * c1 * s1 * s3 ^ 2 * y + (4) * c1 * s1 * c3 * s3 * x + (2) * c1 * s1 * c3 ^ 2 * y
      + (-2) * c1 ^ 2 * s3 ^ 2 * z + (-2) * c1 ^ 2 * c3 ^ 2 * z) * H2
      + ((-2) * c2 * s2 * x + (-2) * c2 ^ 2 * z + (-2) * c1 * s1 * y + (-2) * c1 ^ 2 * z
      + (4) * c1 ^ 2 * c2 * s2 * x + (4) * c1 ^ 2 * c2 ^ 2 * z) * H3

theorem Magnet.moment_of_real (m : Magnet) (V br a b c : ℝ)
    (hV : m.getVolume = num V) (hV0 : V ≠ 0)
    (hBr : m.Br = JSVal.number (num br)) (hbr0 : br ≠ 0)
    (hdir : m.magnetizationDirection = Vec3.ofReal 0 1 0)
    (ho : m.orientation = ⟨num a, num b, num c⟩) :
    m.getMagneticMomentVector =
      Vec3.ofReal (br / (4 * Real.pi * 1e-7) * V * (rotatedAxis a b c).1)
        (br / (4 * Real.pi * 1e-7) * V * (rotatedAxis a b c).2.1)
        (br / (4 * Real.pi * 1e-7) * V * (rotatedAxis a b c).2.2) := by
  have hmu := ne_of_gt mu0_pos
  have h1 : m.getMagneticMomentVector =
      (Vec3.ofReal 0 (br / (4 * Real.pi * 1e-7) * V) 0).applyEuler ⟨num a, num b, num c⟩ := by
    simp only [Magnet.getMagneticMomentVector, hV, hBr, hdir, Vec3.normalize_axis, ho, MU0_eq,
      JSVal.truthy, JSVal.toNumber]
    simp [hV0, hbr0, hmu, Vec3.multiplyScalar, Vec3.ofReal]
  rw [h1, Vec3.applyEuler_ofReal, ← rotateXYZ_axis]
  simp only [rotateXYZ, rotX, rotY, rotZ, Vec3.ofReal, Vec3.mk.injEq, JSNum.num.injEq]
  refine ⟨?_, ?_, ?_⟩ <;> ring

theorem Vec3.eq_ofReal_of_length {v : Vec3} {d : ℝ} (h : v.length = num d) :
    ∃ x y z : ℝ, v = Vec3.ofReal x y z := by
  obtain ⟨x, y, z⟩ := v
  cases x <;> cases y <;> cases z <;> simp [Vec3.length] at h
  exact ⟨_, _, _, rfl⟩

theorem Vec3.normalize_ofReal (x y z : ℝ) (h : Real.sqrt (x * x + y * y + z * z) ≠ 0) :
    (Vec3.ofReal x y z).normalize =
      Vec3.ofReal (x / Real.sqrt (x * x + y * y + z * z))
        (y / Real.sqrt (x * x + y * y + z * z)) (z / Real.sqrt (x * x + y * y + z * z)) := by
  rw [Vec3.normalize, Vec3.length_ofReal]
  simp [JSNum.orElse, h, Vec3.divideScalar, Vec3.multiplyScalar, Vec3.ofReal, div_eq_mul_inv]

theorem Vec3.length_axis_y {t : ℝ} (h : 0 ≤ t) : (Vec3.ofReal 0 t 0).length = num t := by
  rw [Vec3.length_ofReal]
  have : (0 : ℝ) * 0 + t * t + 0 * 0 = t ^ 2 := by ring
  rw [this, Real.sqrt_sq h]

theorem Vec3.length_axis_x {t : ℝ} (h : 0 ≤ t) : (Vec3.ofReal t 0 0).length = num t := by
  rw [Vec3.length_ofReal]
  have : t * t + (0 : ℝ) * 0 + 0 * 0 = t ^ 2 := by ring
  rw [this, Real.sqrt_sq h]

theorem dipole_scalar (d : ℝ) (hd : d ≠ 0) :
    (num 3 * MU0) / (num 4 * PI * JSNum.pow (num d) 4)
      = num (3 * (4 * Real.pi * 1e-7) / (4 * Real.pi * d ^ 4)) := by
  have h : 4 * Real.pi * d ^ 4 ≠ 0 := by
    have := Real.pi_ne_zero
    positivity
  rw [MU0_eq]
  simp [PI, h]

/-! ## Volume and moment -/

theorem N_GRADES_get_N35 : N_GRADES_get "N35" = JSVal.number (num 1.17) := by
  simp [N_GRADES_get, N_GRADES, List.lookup]

/-- Claim C8: `getVolume()` is `pi (d/2000)^2 (t/1000)` for a disc and for a ring
(whatever the ring's inner diameter), `(l/1000)(w/1000)(h/1000)` for a block,
`(4/3) pi (d/2000)^3` for a sphere, and 0 for every other shape string. -/
theorem getVolume_by_shape (m : Magnet) :
    (∀ D t : ℝ, m.shape = "disc" ∨ m.shape = "ring" →
      m.dimensions.diameter = JSVal.number (num D) →
      m.dimensions.thickness = JSVal.number (num t) →
      m.getVolume = num (Real.pi * (D / 2000) ^ 2 * (t / 1000))) ∧
    (∀ l w h : ℝ, m.shape = "block" →
      m.dimensions.length = JSVal.number (num l) →
      m.dimensions.width = JSVal.number (num w) →
      m.dimensions.height = JSVal.number (num h) →
      m.getVolume = num ((l / 1000) * (w / 1000) * (h / 1000))) ∧
    (∀ D : ℝ, m.shape = "sphere" →
      m.dimensions.diameter = JSVal.number (num D) →
      m.getVolume = num ((4 / 3) * Real.pi * (D / 2000) ^ 3)) ∧
    (m.shape ≠ "disc" → m.shape ≠ "ring" → m.shape ≠ "block" → m.shape ≠ "sphere" →
      m.getVolume = num 0) := by
  refine ⟨?_, ?_, ?_, ?_⟩
  · intro D t hs hD ht
    simp [Magnet.getVolume, hs, hD, ht, JSVal.toNumber, PI]
  · intro l w h hs hl hw hh
    simp [Magnet.getVolume, hs, hl, hw, hh, JSVal.toNumber]
  · intro D hs hD
    simp [Magnet.getVolume, hs, hD, JSVal.toNumber, PI]
  · intro h1 h2 h3 h4
    simp [Magnet.getVolume, h1, h2, h3, h4]

/-- Witness of claim C8: a ring, a block, a sphere and a shape that is none of the four. -/
theorem getVolume_by_shape_witness :
    (Magnet.new (magnetParams "ring" "N35" (discDimensions 20 5) (Vec3.ofReal 0 0 0)
        (Euler.ofReal 0 0 0))).getVolume = num (Real.pi * (20 / 2000) ^ 2 * (5 / 1000)) ∧
    (Magnet.new (magnetParams "block" "N35" (blockDimensions 20 10 5) (Vec3.ofReal 0 0 0)
        (Euler.ofReal 0 0 0))).getVolume = num ((20 / 1000) * (10 / 1000) * (5 / 1000)) ∧
    (Magnet.new (magnetParams "sphere" "N35" (sphereDimensions 10) (Vec3.ofReal 0 0 0)
        (Euler.ofReal 0 0 0))).getVolume = num ((4 / 3) * Real.pi * (10 / 2000) ^ 3) ∧
    (Magnet.new (magnetParams "cube" "N35" (blockDimensions 20 10 5) (Vec3.ofReal 0 0 0)
        (Euler.ofReal 0 0 0))).getVolume = num 0 :=
  ⟨(getVolume_by_shape _).1 20 5 (Or.inr (by decide)) rfl rfl,
   (getVolume_by_shape _).2.1 20 10 5 (by decide) rfl rfl rfl,
   (getVolume_by_shape _).2.2.1 10 (by decide) rfl,
   (getVolume_by_shape _).2.2.2 (by decide) (by decide) (by decide) (by decide)⟩

theorem exampleDisc_volume (pos : Vec3) (o : Euler) :
    (exampleDisc pos o).getVolume = num (Real.pi * 5e-7) := by
  simp [exampleDisc, Magnet.new, magnetParams, strOr, discDimensions, Dimensions.unset,
    Magnet.getVolume, JSVal.toNumber, PI]
  ring

theorem exampleDisc_grade (pos : Vec3) (o : Euler) :
    N_GRADES.lookup (exampleDisc pos o).strengthGrade = some 1.17 := by
  simp [exampleDisc, Magnet.new, magnetParams, strOr, N_GRADES, List.lookup]

theorem pi_5e7_ne_zero : Real.pi * 5e-7 ≠ 0 := by
  have := Real.pi_pos
  positivity

/-- Claim C7, amended: for a magnet of recognised grade `br` with a numeric
volume `V ≠ 0` and orientation `(a, b, c)`, the moment vector is `(br/MU0) V`
times the local axis (0,1,0) rotated by `Rx(a) Ry(b) Rz(c)`; its length is
`|(br/MU0) V|`, which is `(br/MU0) V` when `V > 0`; and at the identity
orientation it is `(0, (br/MU0) V, 0)`. -/
theorem getMagneticMomentVector_rotated (p : MagnetParams) (br V a b c : ℝ)
    (hg : N_GRADES.lookup (Magnet.new p).strengthGrade = some br)
    (hV : (Magnet.new p).getVolume = num V) (hV0 : V ≠ 0)
    (ho : (Magnet.new p).orientation = ⟨num a, num b, num c⟩) :
    (Magnet.new p).getMagneticMomentVector =
        Vec3.ofReal (br / (4 * Real.pi * 1e-7) * V * (rotatedAxis a b c).1)
          (br / (4 * Real.pi * 1e-7) * V * (rotatedAxis a b c).2.1)
          (br / (4 * Real.pi * 1e-7) * V * (rotatedAxis a b c).2.2) ∧
      rotatedAxis a b c = rotateXYZ a b c (0, 1, 0) ∧
      (Magnet.new p).getMagneticMomentVector.length = num |br / (4 * Real.pi * 1e-7) * V| ∧
      (0 < V → (Magnet.new p).getMagneticMomentVector.length
        = num (br / (4 * Real.pi * 1e-7) * V)) ∧
      (a = 0 → b = 0 → c = 0 → (Magnet.new p).getMagneticMomentVector
        = Vec3.ofReal 0 (br / (4 * Real.pi * 1e-7) * V) 0) := by
  have hbr := N_GRADES_lookup_pos hg
  have hm := Magnet.moment_of_real (Magnet.new p) V br a b c hV hV0
    (by rw [Magnet.new_Br, N_GRADES_get_of_lookup hg]) (ne_of_gt hbr)
    (Magnet.new_magnetizationDirection p) ho
  have hlen : (Magnet.new p).getMagneticMomentVector.length
      = num |br / (4 * Real.pi * 1e-7) * V| := by
    rw [hm]; exact Vec3.length_scaled_unit _ _ _ _ (rotatedAxis_unit a b c)
  refine ⟨hm, (rotateXYZ_axis a b c).symm, hlen, ?_, ?_⟩
  · intro hVpos
    rw [hlen, abs_of_pos]
    exact mul_pos (div_pos hbr mu0_pos) hVpos
  · intro ha hb hc
    rw [hm, ha, hb, hc]
    simp [rotatedAxis, Vec3.ofReal]

/-- Witness of claim C7: the N35 disc 20 mm by 5 mm at the identity orientation. -/
theorem getMagneticMomentVector_rotated_witness :
    (exampleDisc (Vec3.ofReal 0 0 0) (Euler.ofReal 0 0 0)).getMagneticMomentVector
      = Vec3.ofReal 0 (1.17 / (4 * Real.pi * 1e-7) * (Real.pi * 5e-7)) 0 :=
  (getMagneticMomentVector_rotated
    (magnetParams "disc" "N35" (discDimensions 20 5) (Vec3.ofReal 0 0 0) (Euler.ofReal 0 0 0))
    1.17 (Real.pi * 5e-7) 0 0 0 (exampleDisc_grade _ _) (exampleDisc_volume _ _)
    pi_5e7_ne_zero rfl).2.2.2.2 rfl rfl rfl

/-- Counterexample to claim C7 as stated: an N35 disc of diameter 20 and
thickness -5 has the non-zero volume `-(pi 5e-7)`, and the length of its moment
vector is `1.4625`, not `(Br/MU0) V = -1.4625`. -/
theorem moment_length_negative_volume :
    (Magnet.new (magnetParams "disc" "N35" (discDimensions 20 (-5)) (Vec3.ofReal 0 0 0)
        (Euler.ofReal 0 0 0))).getVolume = num (-(Real.pi * 5e-7)) ∧
      -(Real.pi * 5e-7) ≠ 0 ∧
      (Magnet.new (magnetParams "disc" "N35" (discDimensions 20 (-5)) (Vec3.ofReal 0 0 0)
        (Euler.ofReal 0 0 0))).getMagneticMomentVector.length = num 1.4625 ∧
      (Magnet.new (magnetParams "disc" "N35" (discDimensions 20 (-5)) (Vec3.ofReal 0 0 0)
        (Euler.ofReal 0 0 0))).getMagneticMomentVector.length
        ≠ num (1.17 / (4 * Real.pi * 1e-7) * (-(Real.pi * 5e-7))) := by
  have hpi := Real.pi_pos
  have hV : (Magnet.new (magnetParams "disc" "N35" (discDimensions 20 (-5)) (Vec3.ofReal 0 0 0)
      (Euler.ofReal 0 0 0))).getVolume = num (-(Real.pi * 5e-7)) := by
    simp [Magnet.new, magnetParams, strOr, discDimensions, Dimensions.unset,
      Magnet.getVolume, JSVal.toNumber, PI]
    ring
  have hV0 : -(Real.pi * 5e-7) ≠ 0 := neg_ne_zero.mpr pi_5e7_ne_zero
  have hM : 1.17 / (4 * Real.pi * 1e-7) * (-(Real.pi * 5e-7)) = -1.4625 := by
    field_simp
    ring
  have hm := Magnet.moment_of_real _ (-(Real.pi * 5e-7)) 1.17 0 0 0 hV hV0
    (by simp [Magnet.new, magnetParams, strOr, N_GRADES_get_N35]) (by norm_num)
    (Magnet.new_magnetizationDirection _) rfl
  have hlen := Vec3.length_scaled_unit (1.17 / (4 * Real.pi * 1e-7) * (-(Real.pi * 5e-7)))
    _ _ _ (rotatedAxis_unit 0 0 0)
  rw [← hm, hM] at hlen
  refine ⟨hV, hV0, ?_, ?_⟩
  · rw [hlen]; norm_num [abs_of_neg]
  · rw [hlen, hM]; norm_num [abs_of_neg]

/-! ## The dipole-dipole force -/

/-- Claim C1: when the centres are at least 1e-6 m apart, the returned force is
the closed form `(3 MU0 / (4 pi |r|^4)) [ (m1.rh) m2 + (m2.rh) m1 + (m1.m2) rh
- 5 (m1.rh)(m2.rh) rh ]` of the two moment vectors, `r` the vector from the
first magnet to the second and `rh = r/|r|`. -/
theorem calculateDipoleDipoleForce_formula (p1 p2 : MagnetParams) (d : ℝ)
    (hr : (Vec3.subVectors (Magnet.new p2).position (Magnet.new p1).position).length = num d)
    (hd : 1e-6 ≤ d) :
    calculateDipoleDipoleForce (Magnet.new p1) (Magnet.new p2) =
      dipoleDipoleFormula (Magnet.new p1).getMagneticMomentVector
        (Magnet.new p2).getMagneticMomentVector
        (Vec3.subVectors (Magnet.new p2).position (Magnet.new p1).position) := by
  obtain ⟨x, y, z, hv⟩ := Vec3.eq_ofReal_of_length hr
  have hd0 : d ≠ 0 := by intro h; rw [h] at hd; norm_num at hd
  have hlt : ¬ d < 1e-6 := not_lt.mpr hd
  have hlen := hr
  rw [hv, Vec3.length_ofReal] at hlen
  have hsq : Real.sqrt (x * x + y * y + z * z) = d := by simpa using hlen
  have hn := Vec3.normalize_ofReal x y z (by rw [hsq]; exact hd0)
  rw [hsq] at hn
  simp only [calculateDipoleDipoleForce, dipoleDipoleFormula, hr, hv ▸ hr, JSNum.lt_num]
  rw [hv, hn, dipole_scalar d hd0]
  generalize (Magnet.new p1).getMagneticMomentVector = m1
  generalize (Magnet.new p2).getMagneticMomentVector = m2
  obtain ⟨a1, a2, a3⟩ := m1
  obtain ⟨b1, b2, b3⟩ := m2
  simp only [hlt, decide_False, Bool.false_eq_true, if_false, Vec3.ofReal, Vec3.length_ofReal]
  simp only [JSNum.num_div_num_of_ne _ hd0]
  generalize x / d = u1
  generalize y / d = u2
  generalize z / d = u3
  generalize 3 * (4 * Real.pi * 1e-7) / (4 * Real.pi * d ^ 4) = K
  cases a1 <;> cases a2 <;> cases a3 <;> cases b1 <;> cases b2 <;> cases b3 <;>
    simp [Vec3.zero, Vec3.add, Vec3.multiplyScalar, Vec3.dot, Vec3.smul, Vec3.subVectors]
  refine ⟨?_, ?_, ?_⟩ <;> ring

theorem example_separation :
    (Vec3.subVectors (exampleDisc (Vec3.ofReal 0 0.03 0) (Euler.ofReal 0 0 0)).position
      (exampleDisc (Vec3.ofReal 0 0 0) (Euler.ofReal 0 0 0)).position) = Vec3.ofReal 0 0.03 0 := by
  simp [exampleDisc, Magnet.new, magnetParams, Vec3.subVectors, Vec3.ofReal]

/-- Witness of claim C1: the two N35 discs 30 mm apart along Y. -/
theorem calculateDipoleDipoleForce_formula_witness :
    calculateDipoleDipoleForce (exampleDisc (Vec3.ofReal 0 0 0) (Euler.ofReal 0 0 0))
        (exampleDisc (Vec3.ofReal 0 0.03 0) (Euler.ofReal 0 0 0)) =
      dipoleDipoleFormula
        (exampleDisc (Vec3.ofReal 0 0 0) (Euler.ofReal 0 0 0)).getMagneticMomentVector
        (exampleDisc (Vec3.ofReal 0 0.03 0) (Euler.ofReal 0 0 0)).getMagneticMomentVector
        (Vec3.subVectors (exampleDisc (Vec3.ofReal 0 0.03 0) (Euler.ofReal 0 0 0)).position
          (exampleDisc (Vec3.ofReal 0 0 0) (Euler.ofReal 0 0 0)).position) :=
  calculateDipoleDipoleForce_formula
    (magnetParams "disc" "N35" (discDimensions 20 5) (Vec3.ofReal 0 0 0) (Euler.ofReal 0 0 0))
    (magnetParams "disc" "N35" (discDimensions 20 5) (Vec3.ofReal 0 0.03 0) (Euler.ofReal 0 0 0))
    0.03 (by rw [← exampleDisc, ← exampleDisc, example_separation]
             exact Vec3.length_axis_y (by norm_num)) (by norm_num)

/-- Claim C2: when the centres are closer than 1e-6 m, the force is exactly the
zero vector, whatever the two magnets are. -/
theorem calculateDipoleDipoleForce_coincident (p1 p2 : MagnetParams) (d : ℝ)
    (hr : (Vec3.subVectors (Magnet.new p2).position (Magnet.new p1).position).length = num d)
    (hd : d < 1e-6) :
    calculateDipoleDipoleForce (Magnet.new p1) (Magnet.new p2) = Vec3.ofReal 0 0 0 := by
  simp [calculateDipoleDipoleForce, hr, hd]

/-- Witness of claim C2: two N35 discs whose centres are 1e-7 m apart. -/
theorem calculateDipoleDipoleForce_coincident_witness :
    calculateDipoleDipoleForce (exampleDisc (Vec3.ofReal 0 0 0) (Euler.ofReal 0 0 0))
      (exampleDisc (Vec3.ofReal 0 1e-7 0) (Euler.ofReal 0 0 0)) = Vec3.ofReal 0 0 0 :=
  calculateDipoleDipoleForce_coincident
    (magnetParams "disc" "N35" (discDimensions 20 5) (Vec3.ofReal 0 0 0) (Euler.ofReal 0 0 0))
    (magnetParams "disc" "N35" (discDimensions 20 5) (Vec3.ofReal 0 1e-7 0) (Euler.ofReal 0 0 0))
    1e-7
    (by
      have h : Vec3.subVectors (Vec3.ofReal 0 1e-7 0) (Vec3.ofReal 0 0 0)
          = Vec3.ofReal 0 1e-7 0 := by simp [Vec3.subVectors, Vec3.ofReal]
      show (Vec3.subVectors (Vec3.ofReal 0 1e-7 0) (Vec3.ofReal 0 0 0)).length = num 1e-7
      rw [h]
      exact Vec3.length_axis_y (by norm_num))
    (by norm_num)

theorem Vec3.subVectors_swap (a b : Vec3) : Vec3.subVectors a b = (Vec3.subVectors b a).neg := by
  obtain ⟨a1, a2, a3⟩ := a
  obtain ⟨b1, b2, b3⟩ := b
  cases a1 <;> cases a2 <;> cases a3 <;> cases b1 <;> cases b2 <;> cases b3 <;>
    simp [Vec3.subVectors, Vec3.neg]

theorem Vec3.length_neg (v : Vec3) : v.neg.length = v.length := by
  obtain ⟨x, y, z⟩ := v
  cases x <;> cases y <;> cases z <;> simp [Vec3.neg, Vec3.length]

theorem Vec3.multiplyScalar_nan (v : Vec3) : v.multiplyScalar nan = ⟨nan, nan, nan⟩ := by
  simp [Vec3.multiplyScalar]

theorem Vec3.length_cases (v : Vec3) :
    v.length = nan ∨ ∃ x y z : ℝ, v = Vec3.ofReal x y z := by
  obtain ⟨x, y, z⟩ := v
  cases x <;> cases y <;> cases z <;> simp [Vec3.length, Vec3.ofReal]

/-- Claim C3: exchanging the two magnets negates the force, for all magnets. -/
theorem calculateDipoleDipoleForce_swap (p1 p2 : MagnetParams) :
    calculateDipoleDipoleForce (Magnet.new p2) (Magnet.new p1)
      = (calculateDipoleDipoleForce (Magnet.new p1) (Magnet.new p2)).neg := by
  have hsw := Vec3.subVectors_swap (Magnet.new p1).position (Magnet.new p2).position
  rcases Vec3.length_cases (Vec3.subVectors (Magnet.new p2).position (Magnet.new p1).position)
    with hnan | ⟨x, y, z, hv⟩
  · have hnan2 : (Vec3.subVectors (Magnet.new p1).position (Magnet.new p2).position).length
        = nan := by rw [hsw, Vec3.length_neg, hnan]
    simp [calculateDipoleDipoleForce, hnan, hnan2, Vec3.multiplyScalar_nan, Vec3.neg]
  · have hv2 : Vec3.subVectors (Magnet.new p1).position (Magnet.new p2).position
        = Vec3.ofReal (-x) (-y) (-z) := by rw [hsw, hv]; simp [Vec3.neg, Vec3.ofReal]
    have hsq : (-x) * (-x) + (-y) * (-y) + (-z) * (-z) = x * x + y * y + z * z := by ring
    by_cases hd : Real.sqrt (x * x + y * y + z * z) < 1e-6
    · simp only [calculateDipoleDipoleForce, hv, hv2, Vec3.length_ofReal, hsq, JSNum.lt_num, hd,
        decide_True, if_true]
      simp [Vec3.neg, Vec3.ofReal]
    · have hd0 : Real.sqrt (x * x + y * y + z * z) ≠ 0 := by
        intro h; rw [h] at hd; norm_num at hd
      have hn := Vec3.normalize_ofReal x y z hd0
      have hn2 := Vec3.normalize_ofReal (-x) (-y) (-z) (by rw [hsq]; exact hd0)
      rw [hsq] at hn2
      simp only [calculateDipoleDipoleForce, hv, hv2, hn, hn2, Vec3.length_ofReal, hsq,
        JSNum.lt_num, hd, decide_False, Bool.false_eq_true, if_false, dipole_scalar _ hd0]
      generalize Real.sqrt (x * x + y * y + z * z) = d
      generalize (Magnet.new p1).getMagneticMomentVector = m1
      generalize (Magnet.new p2).getMagneticMomentVector = m2
      obtain ⟨a1, a2, a3⟩ := m1
      obtain ⟨b1, b2, b3⟩ := m2
      generalize 3 * (4 * Real.pi * 1e-7) / (4 * Real.pi * d ^ 4) = K
      simp only [neg_div]
      generalize x / d = u1
      generalize y / d = u2
      generalize z / d = u3
      cases a1 <;> cases a2 <;> cases a3 <;> cases b1 <;> cases b2 <;> cases b3 <;>
        simp [Vec3.zero, Vec3.add, Vec3.multiplyScalar, Vec3.dot, Vec3.neg, Vec3.ofReal]
      refine ⟨?_, ?_, ?_⟩ <;> ring

/-- The force in the form "bracket times scalar", for a numeric separation of
length at least 1e-6. -/
theorem calculateDipoleDipoleForce_unit_form (A B : Magnet) (x y z : ℝ)
    (hv : Vec3.subVectors B.position A.position = Vec3.ofReal x y z)
    (hd : 1e-6 ≤ Real.sqrt (x * x + y * y + z * z)) :
    calculateDipoleDipoleForce A B =
      (forceBracket A.getMagneticMomentVector B.getMagneticMomentVector
        (Vec3.ofReal (x / Real.sqrt (x * x + y * y + z * z))
          (y / Real.sqrt (x * x + y * y + z * z)) (z / Real.sqrt (x * x + y * y + z * z)))
        ).multiplyScalar
        (num (3 * (4 * Real.pi * 1e-7) / (4 * Real.pi * Real.sqrt (x * x + y * y + z * z) ^ 4))) := by
  have hd0 : Real.sqrt (x * x + y * y + z * z) ≠ 0 := by
    intro h; rw [h] at hd; norm_num at hd
  have hlt : ¬ Real.sqrt (x * x + y * y + z * z) < 1e-6 := not_lt.mpr hd
  simp only [calculateDipoleDipoleForce, forceBracket, hv, Vec3.normalize_ofReal x y z hd0,
    Vec3.length_ofReal, JSNum.lt_num, hlt, decide_False, Bool.false_eq_true, if_false,
    dipole_scalar _ hd0]

/-! ### Shared lemmas on moments and aligned dipoles -/

theorem Magnet.getVolume_disc (m : Magnet) (D t : ℝ) (hs : m.shape = "disc" ∨ m.shape = "ring")
    (hD : m.dimensions.diameter = JSVal.number (num D))
    (ht : m.dimensions.thickness = JSVal.number (num t)) :
    m.getVolume = num (Real.pi * (D / 2000) ^ 2 * (t / 1000)) := by
  simp [Magnet.getVolume, hs, hD, ht, JSVal.toNumber, PI]

theorem disc_volume_pos {D t : ℝ} (hD : 0 < D) (ht : 0 < t) :
    0 < Real.pi * (D / 2000) ^ 2 * (t / 1000) := by
  have := Real.pi_pos
  positivity

theorem dipole_scalar_pos {d : ℝ} (hd : 0 < d) :
    0 < 3 * (4 * Real.pi * 1e-7) / (4 * Real.pi * d ^ 4) := by
  have := Real.pi_pos
  positivity

theorem exampleDisc_moment (pos : Vec3) :
    (exampleDisc pos (Euler.ofReal 0 0 0)).getMagneticMomentVector = Vec3.ofReal 0 1.4625 0 := by
  have hM : 1.17 / (4 * Real.pi * 1e-7) * (Real.pi * 5e-7) = 1.4625 := by
    have hpi := Real.pi_pos
    field_simp
    ring
  have hm := Magnet.moment_of_real (exampleDisc pos (Euler.ofReal 0 0 0)) _ 1.17 0 0 0
    (exampleDisc_volume pos _) pi_5e7_ne_zero
    (by simp [exampleDisc, Magnet.new, magnetParams, strOr, N_GRADES_get_N35]) (by norm_num)
    (Magnet.new_magnetizationDirection _) rfl
  rw [hm, hM]
  simp [rotatedAxis, Vec3.ofReal]

theorem sqrt_axis_y {t : ℝ} (h : 0 ≤ t) : Real.sqrt (0 * 0 + t * t + 0 * 0) = t := by
  have : (0 : ℝ) * 0 + t * t + 0 * 0 = t ^ 2 := by ring
  rw [this, Real.sqrt_sq h]

theorem Magnet.moment_zero (m : Magnet)
    (h : m.getVolume = num 0 ∨ m.Br = JSVal.undefined) :
    m.getMagneticMomentVector = Vec3.ofReal 0 0 0 := by
  rcases h with h | h
  · simp [Magnet.getMagneticMomentVector, h]
  · simp [Magnet.getMagneticMomentVector, h, JSVal.truthy]

theorem forceBracket_zero_left (b1 b2 b3 u1 u2 u3 K : ℝ) :
    (forceBracket (Vec3.ofReal 0 0 0) (Vec3.ofReal b1 b2 b3) (Vec3.ofReal u1 u2 u3)).multiplyScalar
      (num K) = Vec3.ofReal 0 0 0 := by
  simp [forceBracket, Vec3.zero, Vec3.add, Vec3.multiplyScalar, Vec3.dot, Vec3.ofReal]

theorem forceBracket_zero_right (b1 b2 b3 u1 u2 u3 K : ℝ) :
    (forceBracket (Vec3.ofReal b1 b2 b3) (Vec3.ofReal 0 0 0) (Vec3.ofReal u1 u2 u3)).multiplyScalar
      (num K) = Vec3.ofReal 0 0 0 := by
  simp [forceBracket, Vec3.zero, Vec3.add, Vec3.multiplyScalar, Vec3.dot, Vec3.ofReal]

theorem force_zero_of_zero_left (A B : Magnet) (b1 b2 b3 x y z : ℝ)
    (hA : A.getMagneticMomentVector = Vec3.ofReal 0 0 0)
    (hB : B.getMagneticMomentVector = Vec3.ofReal b1 b2 b3)
    (hv : Vec3.subVectors B.position A.position = Vec3.ofReal x y z) :
    calculateDipoleDipoleForce A B = Vec3.ofReal 0 0 0 := by
  by_cases hd : Real.sqrt (x * x + y * y + z * z) < 1e-6
  · simp [calculateDipoleDipoleForce, hv, Vec3.length_ofReal, hd]
  · rw [calculateDipoleDipoleForce_unit_form A B x y z hv (not_lt.mp hd), hA, hB,
      forceBracket_zero_left]

theorem force_zero_of_zero_right (A B : Magnet) (b1 b2 b3 x y z : ℝ)
    (hA : A.getMagneticMomentVector = Vec3.ofReal b1 b2 b3)
    (hB : B.getMagneticMomentVector = Vec3.ofReal 0 0 0)
    (hv : Vec3.subVectors B.position A.position = Vec3.ofReal x y z) :
    calculateDipoleDipoleForce A B = Vec3.ofReal 0 0 0 := by
  by_cases hd : Real.sqrt (x * x + y * y + z * z) < 1e-6
  · simp [calculateDipoleDipoleForce, hv, Vec3.length_ofReal, hd]
  · rw [calculateDipoleDipoleForce_unit_form A B x y z hv (not_lt.mp hd), hA, hB,
      forceBracket_zero_right]

theorem N_GRADES_get_undefined {g : String} (h1 : N_GRADES.lookup g = none)
    (h2 : g ∉ objectPrototypeKeys) : N_GRADES_get g = JSVal.undefined := by
  simp [N_GRADES_get, h1, h2]

theorem strOr_some {g d : String} (h : g ≠ "") : strOr (some g) d = g := by
  simp [strOr, h]

theorem forceBracket_aligned (M N σ e1 e2 e3 : ℝ) (hE : e1 * e1 + e2 * e2 + e3 * e3 = 1)
    (hσ : σ ^ 2 = 1) :
    forceBracket (Vec3.ofReal (M * e1) (M * e2) (M * e3)) (Vec3.ofReal (N * e1) (N * e2) (N * e3))
        (Vec3.ofReal (σ * e1) (σ * e2) (σ * e3))
      = Vec3.ofReal (-2 * M * N * σ * e1) (-2 * M * N * σ * e2) (-2 * M * N * σ * e3) := by
  simp only [forceBracket, Vec3.zero, Vec3.add, Vec3.multiplyScalar, Vec3.dot, Vec3.ofReal,
    JSNum.num_mul_num, JSNum.num_add_num, Vec3.mk.injEq, JSNum.num.injEq]
  refine ⟨?_, ?_, ?_⟩
  · linear_combination (M * N * σ * e1 * (3 - 5 * σ ^ 2 * (e1 * e1 + e2 * e2 + e3 * e3 + 1))) * hE
      + (-5 * M * N * σ * e1) * hσ
  · linear_combination (M * N * σ * e2 * (3 - 5 * σ ^ 2 * (e1 * e1 + e2 * e2 + e3 * e3 + 1))) * hE
      + (-5 * M * N * σ * e2) * hσ
  · linear_combination (M * N * σ * e3 * (3 - 5 * σ ^ 2 * (e1 * e1 + e2 * e2 + e3 * e3 + 1))) * hE
      + (-5 * M * N * σ * e3) * hσ

/-- The force between two dipoles `M e` and `N e` separated by `s e` along the
unit vector `e`, dotted with the separation. -/
theorem force_dot_aligned (A B : Magnet) (M N s e1 e2 e3 x y z : ℝ)
    (hE : e1 * e1 + e2 * e2 + e3 * e3 = 1) (hs : 1e-6 ≤ |s|)
    (hA : A.getMagneticMomentVector = Vec3.ofReal (M * e1) (M * e2) (M * e3))
    (hB : B.getMagneticMomentVector = Vec3.ofReal (N * e1) (N * e2) (N * e3))
    (hp1 : A.position = Vec3.ofReal x y z)
    (hp2 : B.position = Vec3.ofReal (x + s * e1) (y + s * e2) (z + s * e3)) :
    (calculateDipoleDipoleForce A B).dot (Vec3.subVectors B.position A.position)
      = num (-(2 * M * N * |s| * (3 * (4 * Real.pi * 1e-7) / (4 * Real.pi * |s| ^ 4)))) := by
  have hs0 : |s| ≠ 0 := by intro h; rw [h] at hs; norm_num at hs
  have hv : Vec3.subVectors B.position A.position = Vec3.ofReal (s * e1) (s * e2) (s * e3) := by
    rw [hp1, hp2]; simp [Vec3.subVectors, Vec3.ofReal]
  have hsq : Real.sqrt (s * e1 * (s * e1) + s * e2 * (s * e2) + s * e3 * (s * e3)) = |s| := by
    have : s * e1 * (s * e1) + s * e2 * (s * e2) + s * e3 * (s * e3) = s ^ 2 := by
      linear_combination s ^ 2 * hE
    rw [this, Real.sqrt_sq_eq_abs]
  have hσ : (s / |s|) ^ 2 = 1 := by
    rw [div_pow, sq_abs]
    exact div_self (pow_ne_zero 2 (abs_ne_zero.mp hs0))
  rw [calculateDipoleDipoleForce_unit_form A B _ _ _ hv (by rw [hsq]; exact hs), hsq, hA, hB, hv]
  have e1' : s * e1 / |s| = s / |s| * e1 := by ring
  have e2' : s * e2 / |s| = s / |s| * e2 := by ring
  have e3' : s * e3 / |s| = s / |s| * e3 := by ring
  rw [e1', e2', e3', forceBracket_aligned M N (s / |s|) e1 e2 e3 hE hσ]
  simp only [Vec3.multiplyScalar, Vec3.dot, Vec3.ofReal, JSNum.num_mul_num, JSNum.num_add_num,
    JSNum.num.injEq]
  have hss : s / |s| * s = |s| := by
    rw [div_mul_eq_mul_div, div_eq_iff hs0]
    exact (abs_mul_abs_self s).symm
  generalize 3 * (4 * Real.pi * 1e-7) / (4 * Real.pi * |s| ^ 4) = K
  linear_combination (-2 * M * N * K * (s / |s| * s)) * hE + (-2 * M * N * K) * hss

/-- Claim C9: an N35 disc of diameter 20 mm and thickness 5 mm has the volume
`pi 0.01^2 0.005 = pi 5e-7` and, for every orientation, a moment vector of
length `(1.17 / (4 pi 1e-7)) (pi 5e-7) = 1.4625`. -/
theorem disc_N35_pinned (p : MagnetParams) (a b c : ℝ)
    (hs : (Magnet.new p).shape = "disc") (hg : (Magnet.new p).strengthGrade = "N35")
    (hD : (Magnet.new p).dimensions.diameter = JSVal.number (num 20))
    (ht : (Magnet.new p).dimensions.thickness = JSVal.number (num 5))
    (ho : (Magnet.new p).orientation = ⟨num a, num b, num c⟩) :
    (Magnet.new p).getVolume = num (Real.pi * 0.01 ^ 2 * 0.005) ∧
      Real.pi * 0.01 ^ 2 * 0.005 = Real.pi * 5e-7 ∧
      (Magnet.new p).getMagneticMomentVector.length = num 1.4625 ∧
      1.17 / (4 * Real.pi * 1e-7) * (Real.pi * 5e-7) = 1.4625 := by
  have hpi := Real.pi_pos
  have hV : (Magnet.new p).getVolume = num (Real.pi * 5e-7) := by
    rw [Magnet.getVolume_disc (Magnet.new p) 20 5 (Or.inl hs) hD ht]
    congr 1; ring
  have hM : 1.17 / (4 * Real.pi * 1e-7) * (Real.pi * 5e-7) = 1.4625 := by
    field_simp
    ring
  have hBr : (Magnet.new p).Br = JSVal.number (num 1.17) := by
    rw [Magnet.new_Br, hg, N_GRADES_get_N35]
  have hm := Magnet.moment_of_real (Magnet.new p) _ 1.17 a b c hV pi_5e7_ne_zero hBr
    (by norm_num) (Magnet.new_magnetizationDirection p) ho
  have hlen := Vec3.length_scaled_unit (1.17 / (4 * Real.pi * 1e-7) * (Real.pi * 5e-7))
    _ _ _ (rotatedAxis_unit a b c)
  rw [← hm, hM] at hlen
  refine ⟨?_, by ring, ?_, hM⟩
  · rw [hV]; congr 1; ring
  · rw [hlen]; norm_num

/-- Claim C10, amended: the moment vector is exactly zero whenever the volume is
0 or the non-empty grade string is neither a key of `N_GRADES` nor a property
name inherited from `Object.prototype`; and the force between such a magnet and
a magnet whose moment vector has no NaN component, at numeric positions, is the
zero vector in both argument orders. -/
theorem getMagneticMomentVector_degenerate (p q : MagnetParams) (g : String)
    (b1 b2 b3 x1 y1 z1 x2 y2 z2 : ℝ)
    (h : (Magnet.new p).getVolume = num 0 ∨
      (p.strengthGrade = some g ∧ g ≠ "" ∧ N_GRADES.lookup g = none ∧ g ∉ objectPrototypeKeys))
    (hq : (Magnet.new q).getMagneticMomentVector = Vec3.ofReal b1 b2 b3)
    (hp1 : (Magnet.new p).position = Vec3.ofReal x1 y1 z1)
    (hp2 : (Magnet.new q).position = Vec3.ofReal x2 y2 z2) :
    (Magnet.new p).getMagneticMomentVector = Vec3.ofReal 0 0 0 ∧
      calculateDipoleDipoleForce (Magnet.new p) (Magnet.new q) = Vec3.ofReal 0 0 0 ∧
      calculateDipoleDipoleForce (Magnet.new q) (Magnet.new p) = Vec3.ofReal 0 0 0 := by
  have hm : (Magnet.new p).getMagneticMomentVector = Vec3.ofReal 0 0 0 := by
    apply Magnet.moment_zero
    rcases h with h | ⟨hg, hne, hl, hk⟩
    · exact Or.inl h
    · right
      have : (Magnet.new p).strengthGrade = g := by
        show strOr p.strengthGrade "N35" = g
        rw [hg, strOr_some hne]
      rw [Magnet.new_Br, this, N_GRADES_get_undefined hl hk]
  refine ⟨hm, ?_, ?_⟩
  · exact force_zero_of_zero_left _ _ b1 b2 b3 (x2 - x1) (y2 - y1) (z2 - z1) hm hq
      (by rw [hp1, hp2]; simp [Vec3.subVectors, Vec3.ofReal])
  · exact force_zero_of_zero_right _ _ b1 b2 b3 (x1 - x2) (y1 - y2) (z1 - z2) hq hm
      (by rw [hp1, hp2]; simp [Vec3.subVectors, Vec3.ofReal])

theorem force_of_example_pair (A B : Magnet)
    (hA : A.getMagneticMomentVector = Vec3.ofReal 0 1.4625 0)
    (hB : B.getMagneticMomentVector = Vec3.ofReal 0 1.4625 0)
    (hv : Vec3.subVectors B.position A.position = Vec3.ofReal 0 0.03 0) :
    calculateDipoleDipoleForce A B = Vec3.ofReal 0 (-1.584375) 0 := by
  have hs : Real.sqrt (0 * 0 + 0.03 * 0.03 + 0 * 0) = 0.03 := sqrt_axis_y (by norm_num)
  rw [calculateDipoleDipoleForce_unit_form _ _ 0 0.03 0 hv (by rw [hs]; norm_num), hs, hA, hB]
  have hpi := Real.pi_pos
  simp only [forceBracket, Vec3.zero, Vec3.add, Vec3.multiplyScalar, Vec3.dot, Vec3.ofReal,
    JSNum.num_mul_num, JSNum.num_add_num, Vec3.mk.injEq, JSNum.num.injEq]
  refine ⟨by ring, ?_, by ring⟩
  field_simp
  ring

/-- Claim C6: two N35 discs (20 mm by 5 mm) at the identity orientation, the
first at the origin and the second at (0, 0.03, 0): the force on the second is
`(0, -1.584375, 0)`, along Y towards the first magnet, of magnitude
`6e-7 * 1.4625^2 / 0.03^4 = 1.584375`. -/
theorem calculateDipoleDipoleForce_pinned :
    calculateDipoleDipoleForce (exampleDisc (Vec3.ofReal 0 0 0) (Euler.ofReal 0 0 0))
        (exampleDisc (Vec3.ofReal 0 0.03 0) (Euler.ofReal 0 0 0)) = Vec3.ofReal 0 (-1.584375) 0 ∧
      (calculateDipoleDipoleForce (exampleDisc (Vec3.ofReal 0 0 0) (Euler.ofReal 0 0 0))
        (exampleDisc (Vec3.ofReal 0 0.03 0) (Euler.ofReal 0 0 0))).length = num 1.584375 ∧
      (6e-7 * 1.4625 ^ 2 / 0.03 ^ 4 : ℝ) = 1.584375 := by
  have hF := force_of_example_pair _ _ (exampleDisc_moment (Vec3.ofReal 0 0 0))
    (exampleDisc_moment (Vec3.ofReal 0 0.03 0)) example_separation
  refine ⟨hF, ?_, by norm_num⟩
  rw [hF, Vec3.length_ofReal]
  have : (0 : ℝ) * 0 + (-1.584375) * (-1.584375) + 0 * 0 = 1.584375 ^ 2 := by ring
  rw [this, Real.sqrt_sq (by norm_num)]

/-- Claim C5: two identical discs of recognised grade and positive dimensions,
the second displaced from the first by `s` (with `|s| >= 1e-6`) along the
magnetisation axis of the first.  With the same orientation (opposite poles
facing) the force on the second has a negative dot product with the separation:
attraction.  With the moment of the second the negation of the moment of the
first (like poles facing) the dot product is positive: repulsion. -/
theorem identical_discs_attract_repel (p1 p2 : MagnetParams) (br D t a b c x y z s : ℝ)
    (hs1 : (Magnet.new p1).shape = "disc") (hs2 : (Magnet.new p2).shape = "disc")
    (hg1 : N_GRADES.lookup (Magnet.new p1).strengthGrade = some br)
    (hg2 : N_GRADES.lookup (Magnet.new p2).strengthGrade = some br)
    (hD1 : (Magnet.new p1).dimensions.diameter = JSVal.number (num D))
    (ht1 : (Magnet.new p1).dimensions.thickness = JSVal.number (num t))
    (hD2 : (Magnet.new p2).dimensions.diameter = JSVal.number (num D))
    (ht2 : (Magnet.new p2).dimensions.thickness = JSVal.number (num t))
    (hD : 0 < D) (ht : 0 < t)
    (ho1 : (Magnet.new p1).orientation = ⟨num a, num b, num c⟩)
    (hp1 : (Magnet.new p1).position = Vec3.ofReal x y z)
    (hp2 : (Magnet.new p2).position = Vec3.ofReal (x + s * (rotatedAxis a b c).1)
      (y + s * (rotatedAxis a b c).2.1) (z + s * (rotatedAxis a b c).2.2))
    (hs : 1e-6 ≤ |s|) :
    ((Magnet.new p2).orientation = (Magnet.new p1).orientation →
      JSNum.lt ((calculateDipoleDipoleForce (Magnet.new p1) (Magnet.new p2)).dot
        (Vec3.subVectors (Magnet.new p2).position (Magnet.new p1).position)) (num 0) = true) ∧
    ((Magnet.new p2).getMagneticMomentVector = (Magnet.new p1).getMagneticMomentVector.neg →
      JSNum.lt (num 0) ((calculateDipoleDipoleForce (Magnet.new p1) (Magnet.new p2)).dot
        (Vec3.subVectors (Magnet.new p2).position (Magnet.new p1).position)) = true) := by
  have hbr := N_GRADES_lookup_pos hg1
  have hVpos := disc_volume_pos hD ht
  have hM : 0 < br / (4 * Real.pi * 1e-7) * (Real.pi * (D / 2000) ^ 2 * (t / 1000)) :=
    mul_pos (div_pos hbr mu0_pos) hVpos
  have hs0 : 0 < |s| := lt_of_lt_of_le (by norm_num) hs
  have hK := dipole_scalar_pos hs0
  have hmA := Magnet.moment_of_real (Magnet.new p1) _ br a b c
    (Magnet.getVolume_disc _ D t (Or.inl hs1) hD1 ht1) (ne_of_gt hVpos)
    (by rw [Magnet.new_Br, N_GRADES_get_of_lookup hg1]) (ne_of_gt hbr)
    (Magnet.new_magnetizationDirection p1) ho1
  constructor
  · intro ho2
    have hmB := Magnet.moment_of_real (Magnet.new p2) _ br a b c
      (Magnet.getVolume_disc _ D t (Or.inl hs2) hD2 ht2) (ne_of_gt hVpos)
      (by rw [Magnet.new_Br, N_GRADES_get_of_lookup hg2]) (ne_of_gt hbr)
      (Magnet.new_magnetizationDirection p2) (by rw [ho2, ho1])
    rw [force_dot_aligned _ _ _ _ s _ _ _ x y z (rotatedAxis_unit a b c) hs hmA hmB hp1 hp2]
    simp only [JSNum.lt_num, decide_eq_true_eq]
    have := mul_pos (mul_pos (mul_pos hM hM) hs0) hK
    linarith
  · intro hneg
    have hmB : (Magnet.new p2).getMagneticMomentVector = Vec3.ofReal
        (-(br / (4 * Real.pi * 1e-7) * (Real.pi * (D / 2000) ^ 2 * (t / 1000)))
          * (rotatedAxis a b c).1)
        (-(br / (4 * Real.pi * 1e-7) * (Real.pi * (D / 2000) ^ 2 * (t / 1000)))
          * (rotatedAxis a b c).2.1)
        (-(br / (4 * Real.pi * 1e-7) * (Real.pi * (D / 2000) ^ 2 * (t / 1000)))
          * (rotatedAxis a b c).2.2) := by
      rw [hneg, hmA]; simp [Vec3.neg, Vec3.ofReal]
    rw [force_dot_aligned _ _ _ _ s _ _ _ x y z (rotatedAxis_unit a b c) hs hmA hmB hp1 hp2]
    simp only [JSNum.lt_num, decide_eq_true_eq]
    have := mul_pos (mul_pos (mul_pos hM hM) hs0) hK
    linarith

/-- Witness of claim C9: the disc turned by the Euler angles (0.3, 0.2, 0.1). -/
theorem disc_N35_pinned_witness :
    (exampleDisc (Vec3.ofReal 0 0 0) (Euler.ofReal 0.3 0.2 0.1)).getVolume
        = num (Real.pi * 0.01 ^ 2 * 0.005) ∧
      (exampleDisc (Vec3.ofReal 0 0 0) (Euler.ofReal 0.3 0.2 0.1)).getMagneticMomentVector.length
        = num 1.4625 :=
  ⟨(disc_N35_pinned
      (magnetParams "disc" "N35" (discDimensions 20 5) (Vec3.ofReal 0 0 0)
        (Euler.ofReal 0.3 0.2 0.1)) 0.3 0.2 0.1 (by decide) (by decide) rfl rfl rfl).1,
   (disc_N35_pinned
      (magnetParams "disc" "N35" (discDimensions 20 5) (Vec3.ofReal 0 0 0)
        (Euler.ofReal 0.3 0.2 0.1)) 0.3 0.2 0.1 (by decide) (by decide) rfl rfl rfl).2.2.1⟩

theorem nan_moment_of_object_grade :
    (Magnet.new (magnetParams "disc" "constructor" (discDimensions 20 5) (Vec3.ofReal 0 0 0)
        (Euler.ofReal 0 0 0))).getMagneticMomentVector = ⟨nan, nan, nan⟩ := by
  have hpi := Real.pi_pos
  have hV : (Magnet.new (magnetParams "disc" "constructor" (discDimensions 20 5)
      (Vec3.ofReal 0 0 0) (Euler.ofReal 0 0 0))).getVolume = num (Real.pi * 5e-7) := by
    simp [Magnet.new, magnetParams, strOr, discDimensions, Dimensions.unset,
      Magnet.getVolume, JSVal.toNumber, PI]
    ring
  have hBr : (Magnet.new (magnetParams "disc" "constructor" (discDimensions 20 5)
      (Vec3.ofReal 0 0 0) (Euler.ofReal 0 0 0))).Br = JSVal.object := by
    simp [Magnet.new, magnetParams, strOr, N_GRADES_get, N_GRADES, List.lookup,
      objectPrototypeKeys]
  simp only [Magnet.getMagneticMomentVector, hV, hBr, JSVal.truthy, JSVal.toNumber]
  simp [Vec3.multiplyScalar, Vec3.applyEuler, Vec3.applyQuaternion]
  intro h
  rcases h with h | h
  · exact absurd h hpi.ne'
  · norm_num at h

theorem exampleRing_volume (pos : Vec3) : (exampleRing pos).getVolume = nan := by
  simp [exampleRing, Magnet.new, magnetParams, strOr, ringDimensions, Dimensions.unset,
    Magnet.getVolume, JSVal.toNumber]

theorem exampleRing_moment (pos : Vec3) :
    (exampleRing pos).getMagneticMomentVector = ⟨nan, nan, nan⟩ := by
  have hBr : (exampleRing pos).Br = JSVal.number (num 1.17) := by
    simp [exampleRing, Magnet.new, magnetParams, strOr, N_GRADES_get_N35]
  simp only [Magnet.getMagneticMomentVector, exampleRing_volume, hBr, JSVal.truthy,
    JSVal.toNumber]
  simp [Vec3.multiplyScalar, Vec3.applyEuler, Vec3.applyQuaternion]
  intro h
  norm_num at h

theorem exampleUnknownGrade_moment (pos : Vec3) :
    (exampleUnknownGrade pos).getMagneticMomentVector = Vec3.ofReal 0 0 0 := by
  apply Magnet.moment_zero
  right
  simp [exampleUnknownGrade, Magnet.new, magnetParams, strOr, N_GRADES_get, N_GRADES,
    List.lookup, objectPrototypeKeys]

theorem forceBracket_nan_right (m u : Vec3) (K : JSNum) :
    (forceBracket m ⟨nan, nan, nan⟩ u).multiplyScalar K = ⟨nan, nan, nan⟩ := by
  simp [forceBracket, Vec3.add, Vec3.multiplyScalar, Vec3.dot]

theorem forceBracket_nan_left (m u : Vec3) (K : JSNum) :
    (forceBracket ⟨nan, nan, nan⟩ m u).multiplyScalar K = ⟨nan, nan, nan⟩ := by
  simp [forceBracket, Vec3.add, Vec3.multiplyScalar, Vec3.dot]

theorem sqrt_axis_x {t : ℝ} (h : 0 ≤ t) : Real.sqrt (t * t + 0 * 0 + 0 * 0) = t := by
  have : t * t + (0 : ℝ) * 0 + 0 * 0 = t ^ 2 := by ring
  rw [this, Real.sqrt_sq h]

/-- Counterexample to claim C10 as stated: with the grade "constructor", which
is not a key of `N_GRADES`, the moment vector of a 20 mm by 5 mm disc is NaN in
every component; and the force between a magnet of the unknown grade "N99"
(zero moment) and a ring configured as the user interface configures it is NaN
in every component. -/
theorem degenerate_magnet_nan :
    ("constructor" ≠ "" ∧ N_GRADES.lookup "constructor" = none ∧
      (Magnet.new (magnetParams "disc" "constructor" (discDimensions 20 5) (Vec3.ofReal 0 0 0)
        (Euler.ofReal 0 0 0))).getMagneticMomentVector = ⟨nan, nan, nan⟩) ∧
    ("N99" ≠ "" ∧ N_GRADES.lookup "N99" = none ∧
      calculateDipoleDipoleForce (exampleUnknownGrade (Vec3.ofReal 0 0 0))
        (exampleRing (Vec3.ofReal 0.03 0 0)) = ⟨nan, nan, nan⟩) := by
  refine ⟨⟨by decide, by simp [N_GRADES, List.lookup], nan_moment_of_object_grade⟩,
    ⟨by decide, by simp [N_GRADES, List.lookup], ?_⟩⟩
  have hv : Vec3.subVectors (exampleRing (Vec3.ofReal 0.03 0 0)).position
      (exampleUnknownGrade (Vec3.ofReal 0 0 0)).position = Vec3.ofReal 0.03 0 0 := by
    simp [exampleRing, exampleUnknownGrade, Magnet.new, magnetParams, Vec3.subVectors,
      Vec3.ofReal]
  rw [calculateDipoleDipoleForce_unit_form _ _ 0.03 0 0 hv
    (by rw [sqrt_axis_x (by norm_num)]; norm_num), exampleRing_moment, forceBracket_nan_right]

/-- Witness of claim C10: a disc of the unknown grade "N99" next to an N35 disc. -/
theorem getMagneticMomentVector_degenerate_witness :
    (exampleUnknownGrade (Vec3.ofReal 0 0 0)).getMagneticMomentVector = Vec3.ofReal 0 0 0 ∧
      calculateDipoleDipoleForce (exampleUnknownGrade (Vec3.ofReal 0 0 0))
        (exampleDisc (Vec3.ofReal 0.03 0 0) (Euler.ofReal 0 0 0)) = Vec3.ofReal 0 0 0 ∧
      calculateDipoleDipoleForce (exampleDisc (Vec3.ofReal 0.03 0 0) (Euler.ofReal 0 0 0))
        (exampleUnknownGrade (Vec3.ofReal 0 0 0)) = Vec3.ofReal 0 0 0 :=
  getMagneticMomentVector_degenerate
    (magnetParams "disc" "N99" (discDimensions 20 5) (Vec3.ofReal 0 0 0) (Euler.ofReal 0 0 0))
    (magnetParams "disc" "N35" (discDimensions 20 5) (Vec3.ofReal 0.03 0 0) (Euler.ofReal 0 0 0))
    "N99" 0 1.4625 0 0 0 0 0.03 0 0
    (Or.inr ⟨rfl, by decide, by simp [N_GRADES, List.lookup], by decide⟩)
    (exampleDisc_moment _) rfl rfl

theorem exampleDisc_moment_flipped (pos : Vec3) :
    (exampleDisc pos (Euler.ofReal Real.pi 0 0)).getMagneticMomentVector
      = Vec3.ofReal 0 (-1.4625) 0 := by
  have hM : 1.17 / (4 * Real.pi * 1e-7) * (Real.pi * 5e-7) = 1.4625 := by
    have hpi := Real.pi_pos
    field_simp
    ring
  have hm := Magnet.moment_of_real (exampleDisc pos (Euler.ofReal Real.pi 0 0)) _ 1.17
    Real.pi 0 0 (exampleDisc_volume pos _) pi_5e7_ne_zero
    (by simp [exampleDisc, Magnet.new, magnetParams, strOr, N_GRADES_get_N35]) (by norm_num)
    (Magnet.new_magnetizationDirection _) rfl
  rw [hm, hM]
  simp [rotatedAxis, Vec3.ofReal]

/-- Witness of claim C5: two N35 discs 30 mm apart along Y, the second with the
same orientation (attraction), then turned by pi about X (repulsion). -/
theorem identical_discs_attract_repel_witness :
    JSNum.lt ((calculateDipoleDipoleForce (exampleDisc (Vec3.ofReal 0 0 0) (Euler.ofReal 0 0 0))
        (exampleDisc (Vec3.ofReal 0 0.03 0) (Euler.ofReal 0 0 0))).dot
        (Vec3.subVectors (exampleDisc (Vec3.ofReal 0 0.03 0) (Euler.ofReal 0 0 0)).position
          (exampleDisc (Vec3.ofReal 0 0 0) (Euler.ofReal 0 0 0)).position)) (num 0) = true ∧
    JSNum.lt (num 0)
      ((calculateDipoleDipoleForce (exampleDisc (Vec3.ofReal 0 0 0) (Euler.ofReal 0 0 0))
        (exampleDisc (Vec3.ofReal 0 0.03 0) (Euler.ofReal Real.pi 0 0))).dot
        (Vec3.subVectors (exampleDisc (Vec3.ofReal 0 0.03 0) (Euler.ofReal Real.pi 0 0)).position
          (exampleDisc (Vec3.ofReal 0 0 0) (Euler.ofReal 0 0 0)).position)) = true := by
  have hpos : ∀ o : Euler, (exampleDisc (Vec3.ofReal 0 0.03 0) o).position
      = Vec3.ofReal (0 + 0.03 * (rotatedAxis 0 0 0).1) (0 + 0.03 * (rotatedAxis 0 0 0).2.1)
        (0 + 0.03 * (rotatedAxis 0 0 0).2.2) := by
    intro o
    simp [exampleDisc, Magnet.new, magnetParams, rotatedAxis, Vec3.ofReal]
  have habs : (1e-6 : ℝ) ≤ |0.03| := by rw [abs_of_pos (by norm_num)]; norm_num
  exact ⟨(identical_discs_attract_repel
      (magnetParams "disc" "N35" (discDimensions 20 5) (Vec3.ofReal 0 0 0) (Euler.ofReal 0 0 0))
      (magnetParams "disc" "N35" (discDimensions 20 5) (Vec3.ofReal 0 0.03 0)
        (Euler.ofReal 0 0 0))
      1.17 20 5 0 0 0 0 0 0 0.03 (by decide) (by decide) (exampleDisc_grade _ _)
      (exampleDisc_grade _ _) rfl rfl rfl rfl (by norm_num) (by norm_num) rfl rfl
      (hpos _) habs).1 rfl,
    (identical_discs_attract_repel
      (magnetParams "disc" "N35" (discDimensions 20 5) (Vec3.ofReal 0 0 0) (Euler.ofReal 0 0 0))
      (magnetParams "disc" "N35" (discDimensions 20 5) (Vec3.ofReal 0 0.03 0)
        (Euler.ofReal Real.pi 0 0))
      1.17 20 5 0 0 0 0 0 0 0.03 (by decide) (by decide) (exampleDisc_grade _ _)
      (exampleDisc_grade _ _) rfl rfl rfl rfl (by norm_num) (by norm_num) rfl rfl
      (hpos _) habs).2 (by
        rw [← exampleDisc, ← exampleDisc, exampleDisc_moment, exampleDisc_moment_flipped]
        simp [Vec3.neg, Vec3.ofReal])⟩

/-! ### Falloff with the distance -/

theorem Magnet.moment_with_position (p : MagnetParams) (q : Option Vec3) :
    (Magnet.new { p with position := q }).getMagneticMomentVector
      = (Magnet.new p).getMagneticMomentVector := rfl

theorem sqrt_scaled (k rx ry rz : ℝ) (hk : 0 ≤ k) :
    Real.sqrt (k * rx * (k * rx) + k * ry * (k * ry) + k * rz * (k * rz))
      = k * Real.sqrt (rx * rx + ry * ry + rz * rz) := by
  have : k * rx * (k * rx) + k * ry * (k * ry) + k * rz * (k * rz)
      = k ^ 2 * (rx * rx + ry * ry + rz * rz) := by ring
  rw [this, Real.sqrt_mul (sq_nonneg k), Real.sqrt_sq hk]

/-- The force on a magnet placed at `pos1 + k r`, in bracket form. -/
theorem force_at_scaled (p1 p2 : MagnetParams) (x y z rx ry rz k : ℝ)
    (hp1 : (Magnet.new p1).position = Vec3.ofReal x y z) (hk : 0 < k)
    (hkr : 1e-6 ≤ k * Real.sqrt (rx * rx + ry * ry + rz * rz)) :
    calculateDipoleDipoleForce (Magnet.new p1)
        (Magnet.new { p2 with
          position := some (Vec3.ofReal (x + k * rx) (y + k * ry) (z + k * rz)) }) =
      (forceBracket (Magnet.new p1).getMagneticMomentVector (Magnet.new p2).getMagneticMomentVector
        (Vec3.ofReal (rx / Real.sqrt (rx * rx + ry * ry + rz * rz))
          (ry / Real.sqrt (rx * rx + ry * ry + rz * rz))
          (rz / Real.sqrt (rx * rx + ry * ry + rz * rz)))).multiplyScalar
        (num (3 * (4 * Real.pi * 1e-7)
          / (4 * Real.pi * (k * Real.sqrt (rx * rx + ry * ry + rz * rz)) ^ 4))) := by
  have hv : Vec3.subVectors
      (Magnet.new { p2 with
        position := some (Vec3.ofReal (x + k * rx) (y + k * ry) (z + k * rz)) }).position
      (Magnet.new p1).position = Vec3.ofReal (k * rx) (k * ry) (k * rz) := by
    rw [hp1]; simp [Magnet.new, Vec3.subVectors, Vec3.ofReal]
  have hs := sqrt_scaled k rx ry rz hk.le
  rw [calculateDipoleDipoleForce_unit_form _ _ _ _ _ hv (by rw [hs]; exact hkr), hs]
  have hk0 : k ≠ 0 := ne_of_gt hk
  rw [mul_div_mul_left _ _ hk0, mul_div_mul_left _ _ hk0, mul_div_mul_left _ _ hk0]
  rfl

/-- Claim C19: for all magnets and every `k > 0`, replacing the separation `r`
by `k r` (both of length at least 1e-6) multiplies the force by exactly
`1 / k^4`, component by component. -/
theorem force_inverse_fourth_power (p1 p2 : MagnetParams) (x y z rx ry rz k : ℝ)
    (hp1 : (Magnet.new p1).position = Vec3.ofReal x y z) (hk : 0 < k)
    (hr : 1e-6 ≤ Real.sqrt (rx * rx + ry * ry + rz * rz))
    (hkr : 1e-6 ≤ k * Real.sqrt (rx * rx + ry * ry + rz * rz)) :
    calculateDipoleDipoleForce (Magnet.new p1)
        (Magnet.new { p2 with
          position := some (Vec3.ofReal (x + k * rx) (y + k * ry) (z + k * rz)) }) =
      Vec3.smul (num (1 / k ^ 4))
        (calculateDipoleDipoleForce (Magnet.new p1)
          (Magnet.new { p2 with
            position := some (Vec3.ofReal (x + rx) (y + ry) (z + rz)) })) := by
  have h1 := force_at_scaled p1 p2 x y z rx ry rz 1 hp1 one_pos (by rw [one_mul]; exact hr)
  simp only [one_mul] at h1
  rw [force_at_scaled p1 p2 x y z rx ry rz k hp1 hk hkr, h1]
  have hd0 : Real.sqrt (rx * rx + ry * ry + rz * rz) ≠ 0 := by
    intro h; rw [h] at hr; norm_num at hr
  have hpi := Real.pi_pos
  have hc : 3 * (4 * Real.pi * 1e-7)
        / (4 * Real.pi * (k * Real.sqrt (rx * rx + ry * ry + rz * rz)) ^ 4)
      = 3 * (4 * Real.pi * 1e-7)
        / (4 * Real.pi * Real.sqrt (rx * rx + ry * ry + rz * rz) ^ 4) * (1 / k ^ 4) := by
    field_simp
    ring
  rw [hc]
  generalize 3 * (4 * Real.pi * 1e-7)
    / (4 * Real.pi * Real.sqrt (rx * rx + ry * ry + rz * rz) ^ 4) = K
  generalize forceBracket _ _ _ = G
  obtain ⟨g1, g2, g3⟩ := G
  cases g1 <;> cases g2 <;> cases g3 <;> simp [Vec3.multiplyScalar, Vec3.smul] <;>
    (try constructor) <;> (try constructor) <;> ring

/-- Witness of claim C19: two N35 discs, the separation doubled from 30 mm to 60 mm. -/
theorem force_inverse_fourth_power_witness :
    calculateDipoleDipoleForce (exampleDisc (Vec3.ofReal 0 0 0) (Euler.ofReal 0 0 0))
        (Magnet.new { magnetParams "disc" "N35" (discDimensions 20 5) (Vec3.ofReal 0 0 0)
            (Euler.ofReal 0 0 0) with
          position := some (Vec3.ofReal (0 + 2 * 0) (0 + 2 * 0.03) (0 + 2 * 0)) }) =
      Vec3.smul (num (1 / 2 ^ 4))
        (calculateDipoleDipoleForce (exampleDisc (Vec3.ofReal 0 0 0) (Euler.ofReal 0 0 0))
          (Magnet.new { magnetParams "disc" "N35" (discDimensions 20 5) (Vec3.ofReal 0 0 0)
              (Euler.ofReal 0 0 0) with
            position := some (Vec3.ofReal (0 + 0) (0 + 0.03) (0 + 0)) })) :=
  force_inverse_fourth_power
    (magnetParams "disc" "N35" (discDimensions 20 5) (Vec3.ofReal 0 0 0) (Euler.ofReal 0 0 0))
    (magnetParams "disc" "N35" (discDimensions 20 5) (Vec3.ofReal 0 0 0) (Euler.ofReal 0 0 0))
    0 0 0 0 0.03 0 2 rfl (by norm_num)
    (by rw [sqrt_axis_y (by norm_num)]; norm_num) (by rw [sqrt_axis_y (by norm_num)]; norm_num)

/-- Claim C4, amended: with the shapes, grades, dimensions, orientations and the
unit direction `u` of the separation fixed, and `1e-6 <= d1 < d2`: if the force
at the distance `d1` is a numeric vector that is not zero, the length of the
force at `d2` is strictly smaller than at `d1`; if it is the zero vector, the
force at `d2` is the zero vector too. -/
theorem force_magnitude_decreases (p1 p2 : MagnetParams)
    (x y z u1 u2 u3 d1 d2 f1 f2 f3 : ℝ)
    (hp1 : (Magnet.new p1).position = Vec3.ofReal x y z)
    (hu : u1 * u1 + u2 * u2 + u3 * u3 = 1) (hd1 : 1e-6 ≤ d1) (hd : d1 < d2)
    (hF : calculateDipoleDipoleForce (Magnet.new p1)
        (Magnet.new { p2 with
          position := some (Vec3.ofReal (x + d1 * u1) (y + d1 * u2) (z + d1 * u3)) })
      = Vec3.ofReal f1 f2 f3) :
    (¬ (f1 = 0 ∧ f2 = 0 ∧ f3 = 0) →
      JSNum.lt
        (calculateDipoleDipoleForce (Magnet.new p1)
          (Magnet.new { p2 with
            position := some (Vec3.ofReal (x + d2 * u1) (y + d2 * u2) (z + d2 * u3)) })).length
        (calculateDipoleDipoleForce (Magnet.new p1)
          (Magnet.new { p2 with
            position := some (Vec3.ofReal (x + d1 * u1) (y + d1 * u2) (z + d1 * u3)) })).length
        = true) ∧
    ((f1 = 0 ∧ f2 = 0 ∧ f3 = 0) →
      calculateDipoleDipoleForce (Magnet.new p1)
        (Magnet.new { p2 with
          position := some (Vec3.ofReal (x + d2 * u1) (y + d2 * u2) (z + d2 * u3)) })
        = Vec3.ofReal 0 0 0) := by
  have hd1pos : 0 < d1 := lt_of_lt_of_le (by norm_num) hd1
  have hd2pos : 0 < d2 := lt_trans hd1pos hd
  have hsu : Real.sqrt (u1 * u1 + u2 * u2 + u3 * u3) = 1 := by rw [hu, Real.sqrt_one]
  have h1 := force_at_scaled p1 p2 x y z u1 u2 u3 d1 hp1 hd1pos (by rw [hsu, mul_one]; exact hd1)
  have h2 := force_at_scaled p1 p2 x y z u1 u2 u3 d2 hp1 hd2pos
    (by rw [hsu, mul_one]; exact le_trans hd1 hd.le)
  rw [hsu, mul_one] at h1 h2
  rw [h1] at hF
  rw [h1, h2]
  have hc1 := dipole_scalar_pos hd1pos
  have hc2 := dipole_scalar_pos hd2pos
  have hlt : 3 * (4 * Real.pi * 1e-7) / (4 * Real.pi * d2 ^ 4)
      < 3 * (4 * Real.pi * 1e-7) / (4 * Real.pi * d1 ^ 4) := by
    have hpi := Real.pi_pos
    apply div_lt_div_of_pos_left (by positivity) (by positivity)
    have : d1 ^ 4 < d2 ^ 4 := pow_lt_pow_left₀ hd hd1pos.le (by norm_num)
    nlinarith
  revert hF hc1 hc2 hlt
  generalize 3 * (4 * Real.pi * 1e-7) / (4 * Real.pi * d1 ^ 4) = c1
  generalize 3 * (4 * Real.pi * 1e-7) / (4 * Real.pi * d2 ^ 4) = c2
  generalize forceBracket _ _ _ = G
  intro hF hc1 hc2 hlt
  obtain ⟨g1, g2, g3⟩ := G
  cases g1 <;> cases g2 <;> cases g3 <;>
    simp [Vec3.multiplyScalar, Vec3.ofReal] at hF
  rename_i g1 g2 g3
  obtain ⟨e1, e2, e3⟩ := hF
  constructor
  · intro hne
    have hg : 0 < g1 * g1 + g2 * g2 + g3 * g3 := by
      rcases lt_or_eq_of_le (sq_sum_nonneg g1 g2 g3) with h | h
      · exact h
      · exfalso
        apply hne
        have h1' : g1 = 0 := by nlinarith [mul_self_nonneg g1, mul_self_nonneg g2, mul_self_nonneg g3]
        have h2' : g2 = 0 := by nlinarith [mul_self_nonneg g1, mul_self_nonneg g2, mul_self_nonneg g3]
        have h3' : g3 = 0 := by nlinarith [mul_self_nonneg g1, mul_self_nonneg g2, mul_self_nonneg g3]
        refine ⟨?_, ?_, ?_⟩
        · rw [← e1, h1', zero_mul]
        · rw [← e2, h2', zero_mul]
        · rw [← e3, h3', zero_mul]
    have hl : ∀ c : ℝ, (Vec3.multiplyScalar ⟨num g1, num g2, num g3⟩ (num c)).length
        = num (Real.sqrt ((g1 * g1 + g2 * g2 + g3 * g3) * c ^ 2)) := by
      intro c
      have := Vec3.length_ofReal (g1 * c) (g2 * c) (g3 * c)
      simp only [Vec3.ofReal] at this
      simp only [Vec3.multiplyScalar, JSNum.num_mul_num, this]
      congr 2; ring
    rw [hl c1, hl c2]
    simp only [JSNum.lt_num, decide_eq_true_eq]
    apply Real.sqrt_lt_sqrt (by positivity)
    have : c2 ^ 2 < c1 ^ 2 := pow_lt_pow_left₀ hlt hc2.le (by norm_num)
    exact mul_lt_mul_of_pos_left this hg
  · rintro ⟨z1, z2, z3⟩
    have hc10 := ne_of_gt hc1
    have h1' : g1 = 0 := by
      rcases mul_eq_zero.mp (e1.trans z1) with h | h
      · exact h
      · exact absurd h hc10
    have h2' : g2 = 0 := by
      rcases mul_eq_zero.mp (e2.trans z2) with h | h
      · exact h
      · exact absurd h hc10
    have h3' : g3 = 0 := by
      rcases mul_eq_zero.mp (e3.trans z3) with h | h
      · exact h
      · exact absurd h hc10
    simp [Vec3.multiplyScalar, Vec3.ofReal, h1', h2', h3']

/-- Witness of claim C4: two N35 discs along Y, at 30 mm and at 60 mm. -/
theorem force_magnitude_decreases_witness :
    JSNum.lt
      (calculateDipoleDipoleForce (exampleDisc (Vec3.ofReal 0 0 0) (Euler.ofReal 0 0 0))
        (Magnet.new { magnetParams "disc" "N35" (discDimensions 20 5) (Vec3.ofReal 0 0 0)
            (Euler.ofReal 0 0 0) with
          position := some (Vec3.ofReal (0 + 0.06 * 0) (0 + 0.06 * 1) (0 + 0.06 * 0)) })).length
      (calculateDipoleDipoleForce (exampleDisc (Vec3.ofReal 0 0 0) (Euler.ofReal 0 0 0))
        (Magnet.new { magnetParams "disc" "N35" (discDimensions 20 5) (Vec3.ofReal 0 0 0)
            (Euler.ofReal 0 0 0) with
          position := some (Vec3.ofReal (0 + 0.03 * 0) (0 + 0.03 * 1) (0 + 0.03 * 0)) })).length
      = true :=
  (force_magnitude_decreases
    (magnetParams "disc" "N35" (discDimensions 20 5) (Vec3.ofReal 0 0 0) (Euler.ofReal 0 0 0))
    (magnetParams "disc" "N35" (discDimensions 20 5) (Vec3.ofReal 0 0 0) (Euler.ofReal 0 0 0))
    0 0 0 0 1 0 0.03 0.06 0 (-1.584375) 0 rfl (by norm_num) (by norm_num) (by norm_num)
    (force_of_example_pair _ _ (exampleDisc_moment _) (exampleDisc_moment _)
      (by simp [exampleDisc, Magnet.new, magnetParams, Vec3.subVectors, Vec3.ofReal]))).1
    (by norm_num)

theorem exampleFlatDisc_moment (pos : Vec3) :
    (exampleFlatDisc pos).getMagneticMomentVector = Vec3.ofReal 0 0 0 := by
  apply Magnet.moment_zero
  left
  simp [exampleFlatDisc, Magnet.new, magnetParams, strOr, discDimensions, Dimensions.unset,
    Magnet.getVolume, JSVal.toNumber, PI]

/-- Counterexample to claim C4 as stated: with a second disc of thickness 0 the
force is the zero vector at 30 mm and at 60 mm, and with a second magnet that is
a ring configured as the user interface configures it the force is NaN at both
distances; in neither case is the length at 60 mm smaller than at 30 mm. -/
theorem force_magnitude_not_decreasing :
    ((1e-6 : ℝ) ≤ 0.03 ∧ (0.03 : ℝ) < 0.06) ∧
    JSNum.lt
      (calculateDipoleDipoleForce (exampleDisc (Vec3.ofReal 0 0 0) (Euler.ofReal 0 0 0))
        (exampleFlatDisc (Vec3.ofReal 0.06 0 0))).length
      (calculateDipoleDipoleForce (exampleDisc (Vec3.ofReal 0 0 0) (Euler.ofReal 0 0 0))
        (exampleFlatDisc (Vec3.ofReal 0.03 0 0))).length = false ∧
    JSNum.lt
      (calculateDipoleDipoleForce (exampleDisc (Vec3.ofReal 0 0 0) (Euler.ofReal 0 0 0))
        (exampleRing (Vec3.ofReal 0.06 0 0))).length
      (calculateDipoleDipoleForce (exampleDisc (Vec3.ofReal 0 0 0) (Euler.ofReal 0 0 0))
        (exampleRing (Vec3.ofReal 0.03 0 0))).length = false := by
  have hz : ∀ t : ℝ, calculateDipoleDipoleForce
      (exampleDisc (Vec3.ofReal 0 0 0) (Euler.ofReal 0 0 0)) (exampleFlatDisc (Vec3.ofReal t 0 0))
      = Vec3.ofReal 0 0 0 := fun t =>
    force_zero_of_zero_right _ _ 0 1.4625 0 t 0 0 (exampleDisc_moment _)
      (exampleFlatDisc_moment _)
      (by simp [exampleDisc, exampleFlatDisc, Magnet.new, magnetParams, Vec3.subVectors,
        Vec3.ofReal])
  have hn : ∀ t : ℝ, 1e-6 ≤ t → calculateDipoleDipoleForce
      (exampleDisc (Vec3.ofReal 0 0 0) (Euler.ofReal 0 0 0)) (exampleRing (Vec3.ofReal t 0 0))
      = ⟨nan, nan, nan⟩ := by
    intro t ht
    have hv : Vec3.subVectors (exampleRing (Vec3.ofReal t 0 0)).position
        (exampleDisc (Vec3.ofReal 0 0 0) (Euler.ofReal 0 0 0)).position = Vec3.ofReal t 0 0 := by
      simp [exampleRing, exampleDisc, Magnet.new, magnetParams, Vec3.subVectors, Vec3.ofReal]
    have h0 : (0 : ℝ) ≤ t := le_trans (by norm_num) ht
    rw [calculateDipoleDipoleForce_unit_form _ _ t 0 0 hv (by rw [sqrt_axis_x h0]; exact ht),
      exampleRing_moment, forceBracket_nan_right]
  refine ⟨⟨by norm_num, by norm_num⟩, ?_, ?_⟩
  · rw [hz, hz]
    simp [Vec3.length, Vec3.ofReal]
  · rw [hn 0.06 (by norm_num), hn 0.03 (by norm_num)]
    simp [Vec3.length]

/-! ## The force on a ferromagnetic object -/

theorem Vec3.applyEuler_nan_length (v : Vec3) (o : Euler)
    (h : o.x = nan ∨ o.y = nan ∨ o.z = nan) : (v.applyEuler o).length = nan := by
  obtain ⟨a, b, c⟩ := o
  simp only at h
  rcases h with h | h | h <;> subst h <;>
    simp [Vec3.applyEuler, Vec3.applyQuaternion, Quaternion.setFromEuler, Vec3.length,
      JSNum.cos, JSNum.sin]

theorem Euler.cases_numeric (o : Euler) :
    (o.x = nan ∨ o.y = nan ∨ o.z = nan) ∨ ∃ a b c : ℝ, o = ⟨num a, num b, num c⟩ := by
  obtain ⟨a, b, c⟩ := o
  cases a <;> cases b <;> cases c <;> simp

/-- The length of the moment vector of a magnet with non-zero numeric volume and
positive remanence is never `=== 0`. -/
theorem Magnet.moment_length_not_zero (m : Magnet) (V br : ℝ)
    (hV : m.getVolume = num V) (hV0 : V ≠ 0)
    (hBr : m.Br = JSVal.number (num br)) (hbr0 : br ≠ 0)
    (hdir : m.magnetizationDirection = Vec3.ofReal 0 1 0) :
    m.getMagneticMomentVector.length.strictEq (num 0) = false := by
  rcases Euler.cases_numeric m.orientation with h | ⟨a, b, c, ho⟩
  · have hmu := ne_of_gt mu0_pos
    have : m.getMagneticMomentVector.length = nan := by
      simp only [Magnet.getMagneticMomentVector, hV, hBr, JSVal.truthy, JSVal.toNumber]
      simp only [JSNum.strictEq_num, JSNum.truthy_num, hV0, hbr0, decide_False, ne_eq,
        not_false_eq_true, decide_True, Bool.not_true, Bool.or_self, Bool.false_eq_true,
        if_false]
      exact Vec3.applyEuler_nan_length _ _ h
    rw [this]; rfl
  · rw [Magnet.moment_of_real m V br a b c hV hV0 hBr hbr0 hdir ho,
      Vec3.length_scaled_unit _ _ _ _ (rotatedAxis_unit a b c)]
    have hmu := mu0_pos
    have : br / (4 * Real.pi * 1e-7) * V ≠ 0 :=
      mul_ne_zero (div_ne_zero hbr0 (ne_of_gt hmu)) hV0
    simp [this]

theorem ferroGap_nonneg (c d : ℝ) : 0 ≤ ferroGap c d := by
  unfold ferroGap
  split_ifs with h
  · norm_num
  · exact not_lt.mp h

theorem ferroMagnitude_pos {br A c d : ℝ} (hbr : 0 < br) (hA : 0 < A) (hc : 0 < c) :
    0 < ferroMagnitude br A c d := by
  unfold ferroMagnitude
  have hg := ferroGap_nonneg c d
  have hpi := Real.pi_pos
  have hb : 0 < 1 + ferroGap c d / (c / 1000) := by positivity
  exact div_pos (by positivity) (Real.rpow_pos_of_pos hb _)

/-- The result of `calculateMagnetToFerroForce` for a disc or a sphere whose
`thickness || diameter` is the positive number `c`. -/
theorem ferro_force_form (m : Magnet) (f : FerromagneticObject) (br D c d : ℝ)
    (hs : m.shape = "disc" ∨ m.shape = "sphere")
    (hBr : m.Br = JSVal.number (num br))
    (hD : m.dimensions.diameter = JSVal.number (num D))
    (hh : JSNum.orElse (m.dimensions.thickness.toNumber / num 2000)
      (m.dimensions.diameter.toNumber / num 2000) = num (c / 2000))
    (hL : JSNum.orElse (m.dimensions.thickness.toNumber / num 1000)
      (m.dimensions.diameter.toNumber / num 1000) = num (c / 1000))
    (hc : 0 < c)
    (hmag : m.getMagneticMomentVector.length.strictEq (num 0) = false) :
    calculateMagnetToFerroForce m f (num d) =
      (Vec3.subVectors m.position f.position).normalize.multiplyScalar
        (num (ferroMagnitude br (Real.pi * (D / 2000) ^ 2) c (if d < 1e-6 then 1e-6 else d))) := by
  have hmu := ne_of_gt mu0_pos
  have h2mu : 2 * (4 * Real.pi * 1e-7) ≠ 0 := mul_ne_zero two_ne_zero hmu
  have hc0 : c / 1000 ≠ 0 := by positivity
  simp only [calculateMagnetToFerroForce, hh, hL]
  simp only [hs, hBr, hD, hmag, JSVal.toNumber, MU0_eq,
    JSNum.lt_num, if_true, Bool.false_eq_true, if_false]
  congr 1
  have key : ∀ e : ℝ, (num (br ^ 2 * (Real.pi * (D / 2000) ^ 2) / (2 * (4 * Real.pi * 1e-7))) /
      JSNum.rpow (num 1 + (if (num e - num (c / 2000)).lt (num 0) = true then num 0.0001
        else num e - num (c / 2000)) / num (c / 1000)) 2.5)
      = num (ferroMagnitude br (Real.pi * (D / 2000) ^ 2) c e) := by
    intro e
    have hg := ferroGap_nonneg c e
    have hpos : 0 < 1 + ferroGap c e / (c / 1000) := by positivity
    unfold ferroMagnitude
    by_cases hn : e - c / 2000 < 0
    · have hgap : ferroGap c e = 0.0001 := by simp [ferroGap, hn]
      rw [hgap] at hpos ⊢
      have hp := ne_of_gt (Real.rpow_pos_of_pos hpos 2.5)
      simp [hn, hc0, JSNum.rpow, not_lt.mpr hpos.le, hp]
    · have hgap : ferroGap c e = e - c / 2000 := by simp [ferroGap, hn]
      rw [hgap] at hpos ⊢
      have hp := ne_of_gt (Real.rpow_pos_of_pos hpos 2.5)
      simp [hn, hc0, JSNum.rpow, not_lt.mpr hpos.le, hp]
  by_cases hd : d < 1e-6
  · simp only [hd, decide_True, if_true]
    simpa [PI, h2mu] using key 1e-6
  · simp only [hd, decide_False, Bool.false_eq_true, if_false]
    simpa [PI, h2mu] using key d

theorem sqrt_sq_sum_pos {x y z : ℝ} (hne : ¬ (x = 0 ∧ y = 0 ∧ z = 0)) :
    0 < Real.sqrt (x * x + y * y + z * z) := by
  apply Real.sqrt_pos.mpr
  rcases lt_or_eq_of_le (sq_sum_nonneg x y z) with h | h
  · exact h
  · exfalso
    apply hne
    refine ⟨?_, ?_, ?_⟩ <;> nlinarith [mul_self_nonneg x, mul_self_nonneg y, mul_self_nonneg z]

theorem Vec3.normalize_scaled_length (x y z F : ℝ) (hne : ¬ (x = 0 ∧ y = 0 ∧ z = 0)) :
    ((Vec3.ofReal x y z).normalize.multiplyScalar (num F)).length = num |F| := by
  have hn := sqrt_sq_sum_pos hne
  rw [Vec3.normalize_ofReal x y z (ne_of_gt hn)]
  have hsq := Real.mul_self_sqrt (sq_sum_nonneg x y z)
  have h := Vec3.length_scaled_unit F (x / Real.sqrt (x * x + y * y + z * z))
    (y / Real.sqrt (x * x + y * y + z * z)) (z / Real.sqrt (x * x + y * y + z * z))
    (by field_simp; linarith)
  simp only [Vec3.multiplyScalar, Vec3.ofReal, JSNum.num_mul_num] at h ⊢
  rw [mul_comm (x / Real.sqrt (x * x + y * y + z * z)) F,
    mul_comm (y / Real.sqrt (x * x + y * y + z * z)) F,
    mul_comm (z / Real.sqrt (x * x + y * y + z * z)) F]
  exact h

theorem Vec3.normalize_scaled_dot (x y z F : ℝ) (hne : ¬ (x = 0 ∧ y = 0 ∧ z = 0)) :
    ((Vec3.ofReal x y z).normalize.multiplyScalar (num F)).dot (Vec3.ofReal x y z)
      = num (F * Real.sqrt (x * x + y * y + z * z)) := by
  have hn := sqrt_sq_sum_pos hne
  rw [Vec3.normalize_ofReal x y z (ne_of_gt hn)]
  have hsq := Real.mul_self_sqrt (sq_sum_nonneg x y z)
  simp only [Vec3.multiplyScalar, Vec3.dot, Vec3.ofReal, JSNum.num_mul_num, JSNum.num_add_num,
    JSNum.num.injEq]
  field_simp
  linear_combination (-F) * hsq

theorem subVectors_ofReal (x y z x' y' z' : ℝ) :
    Vec3.subVectors (Vec3.ofReal x y z) (Vec3.ofReal x' y' z')
      = Vec3.ofReal (x - x') (y - y') (z - z') := by
  simp [Vec3.subVectors, Vec3.ofReal]

theorem sub_ne_zero_triple {x y z x' y' z' : ℝ} (hne : ¬ (x = x' ∧ y = y' ∧ z = z')) :
    ¬ (x - x' = 0 ∧ y - y' = 0 ∧ z - z' = 0) := by
  rintro ⟨h1, h2, h3⟩
  exact hne ⟨sub_eq_zero.mp h1, sub_eq_zero.mp h2, sub_eq_zero.mp h3⟩

theorem orElse_num_left {a : ℝ} (b : JSNum) (h : a ≠ 0) : JSNum.orElse (num a) b = num a := by
  simp [JSNum.orElse, h]

theorem orElse_nan_left (b : JSNum) : JSNum.orElse nan b = b := by
  simp [JSNum.orElse]

/-- The force on a ferromagnetic object by a disc of positive dimensions. -/
theorem ferro_force_disc (p : MagnetParams) (f : FerromagneticObject) (br D t d : ℝ)
    (hs : (Magnet.new p).shape = "disc")
    (hg : N_GRADES.lookup (Magnet.new p).strengthGrade = some br)
    (hD : (Magnet.new p).dimensions.diameter = JSVal.number (num D))
    (ht : (Magnet.new p).dimensions.thickness = JSVal.number (num t))
    (hDpos : 0 < D) (htpos : 0 < t) :
    calculateMagnetToFerroForce (Magnet.new p) f (num d) =
      (Vec3.subVectors (Magnet.new p).position f.position).normalize.multiplyScalar
        (num (ferroMagnitude br (Real.pi * (D / 2000) ^ 2) t (if d < 1e-6 then 1e-6 else d))) := by
  have hbr := N_GRADES_lookup_pos hg
  have hBr : (Magnet.new p).Br = JSVal.number (num br) := by
    rw [Magnet.new_Br, N_GRADES_get_of_lookup hg]
  apply ferro_force_form _ _ br D t d (Or.inl hs) hBr hD _ _ htpos
  · exact Magnet.moment_length_not_zero _ _ br
      (Magnet.getVolume_disc _ D t (Or.inl hs) hD ht) (ne_of_gt (disc_volume_pos hDpos htpos))
      hBr (ne_of_gt hbr) (Magnet.new_magnetizationDirection p)
  · rw [ht, hD]
    simp only [JSVal.toNumber, JSNum.num_div_num_of_ne _ (show (2000 : ℝ) ≠ 0 by norm_num)]
    exact orElse_num_left _ (by positivity)
  · rw [ht, hD]
    simp only [JSVal.toNumber, JSNum.num_div_num_of_ne _ (show (1000 : ℝ) ≠ 0 by norm_num)]
    exact orElse_num_left _ (by positivity)


/-- Claim C12, amended: for a disc of recognised grade `br`, positive diameter
`D` and thickness `t` (mm), a ferromagnetic object at another position and a
distance `d >= 1e-6` with `d < t/2000` or `d >= t/2000 + 1e-4`, the magnitude of
the force is `F0 / (1 + surfaceGap / (t/1000))^2.5` with
`F0 = br^2 pi (D/2000)^2 / (2 MU0)` and
`surfaceGap = max(d - t/2000, 1e-4)`: half the thickness is subtracted. -/
theorem ferro_force_magnitude_disc (p : MagnetParams) (f : FerromagneticObject)
    (br D t d x y z x' y' z' : ℝ)
    (hs : (Magnet.new p).shape = "disc")
    (hg : N_GRADES.lookup (Magnet.new p).strengthGrade = some br)
    (hD : (Magnet.new p).dimensions.diameter = JSVal.number (num D))
    (ht : (Magnet.new p).dimensions.thickness = JSVal.number (num t))
    (hDpos : 0 < D) (htpos : 0 < t) (hd : 1e-6 ≤ d)
    (hpm : (Magnet.new p).position = Vec3.ofReal x y z)
    (hpf : f.position = Vec3.ofReal x' y' z')
    (hne : ¬ (x = x' ∧ y = y' ∧ z = z'))
    (hband : d < t / 2000 ∨ t / 2000 + 0.0001 ≤ d) :
    (calculateMagnetToFerroForce (Magnet.new p) f (num d)).length =
      num (br ^ 2 * (Real.pi * (D / 2000) ^ 2) / (2 * (4 * Real.pi * 1e-7))
        / (1 + max (d - t / 2000) 0.0001 / (t / 1000)) ^ (2.5 : ℝ)) := by
  have hbr := N_GRADES_lookup_pos hg
  have hA : 0 < Real.pi * (D / 2000) ^ 2 := by have := Real.pi_pos; positivity
  rw [ferro_force_disc p f br D t d hs hg hD ht hDpos htpos, hpm, hpf, subVectors_ofReal,
    Vec3.normalize_scaled_length _ _ _ _ (sub_ne_zero_triple hne),
    abs_of_pos (ferroMagnitude_pos hbr hA htpos), if_neg (not_lt.mpr hd)]
  have hgap : ferroGap t d = max (d - t / 2000) 0.0001 := by
    unfold ferroGap
    rcases hband with h | h
    · rw [if_pos (by linarith), max_eq_right (by linarith)]
    · rw [if_neg (by linarith), max_eq_left (by linarith)]
  rw [ferroMagnitude, hgap]

theorem examplePlate_position (pos : Vec3) : (examplePlate pos).position = pos := rfl

theorem exampleDisc_position (pos : Vec3) (o : Euler) : (exampleDisc pos o).position = pos := rfl

/-- Counterexample to claim C12 as stated: for the N35 disc 20 mm by 5 mm and
`d = 0.03` the code subtracts half the thickness, `0.03 - 5/2000`, so the
magnitude is `F0 / 6.5^2.5`, not the `F0 / 6^2.5` that
`surfaceGap = max(d - 5/1000, 1e-4)` gives. -/
theorem ferro_gap_uses_half_thickness :
    (calculateMagnetToFerroForce (exampleDisc (Vec3.ofReal 0 0 0) (Euler.ofReal 0 0 0))
        (examplePlate (Vec3.ofReal 0.03 0 0)) (num 0.03)).length
      = num (1.17 ^ 2 * (Real.pi * (20 / 2000) ^ 2) / (2 * (4 * Real.pi * 1e-7))
          / (1 + (0.03 - 5 / 2000) / (5 / 1000)) ^ (2.5 : ℝ)) ∧
    (calculateMagnetToFerroForce (exampleDisc (Vec3.ofReal 0 0 0) (Euler.ofReal 0 0 0))
        (examplePlate (Vec3.ofReal 0.03 0 0)) (num 0.03)).length
      ≠ num (1.17 ^ 2 * (Real.pi * (20 / 2000) ^ 2) / (2 * (4 * Real.pi * 1e-7))
          / (1 + max (0.03 - 5 / 1000) 0.0001 / (5 / 1000)) ^ (2.5 : ℝ)) := by
  have hpi := Real.pi_pos
  have hA : 0 < Real.pi * ((20 : ℝ) / 2000) ^ 2 := by positivity
  have hlen : (calculateMagnetToFerroForce (exampleDisc (Vec3.ofReal 0 0 0) (Euler.ofReal 0 0 0))
        (examplePlate (Vec3.ofReal 0.03 0 0)) (num 0.03)).length
      = num (1.17 ^ 2 * (Real.pi * (20 / 2000) ^ 2) / (2 * (4 * Real.pi * 1e-7))
          / (1 + (0.03 - 5 / 2000) / (5 / 1000)) ^ (2.5 : ℝ)) := by
    rw [exampleDisc, ferro_force_disc _ _ 1.17 20 5 0.03 (by decide) (exampleDisc_grade _ _)
      rfl rfl (by norm_num) (by norm_num), ← exampleDisc, exampleDisc_position,
      examplePlate_position, subVectors_ofReal,
      Vec3.normalize_scaled_length _ _ _ _ (by norm_num),
      abs_of_pos (ferroMagnitude_pos (by norm_num) hA (by norm_num)),
      if_neg (by norm_num), ferroMagnitude, ferroGap, if_neg (by norm_num)]
  refine ⟨hlen, ?_⟩
  rw [hlen]
  intro h
  have h1 := JSNum.num.inj h
  have hm : max ((0.03 : ℝ) - 5 / 1000) 0.0001 = 0.03 - 5 / 1000 := max_eq_left (by norm_num)
  rw [hm] at h1
  have e1 : (1 : ℝ) + (0.03 - 5 / 2000) / (5 / 1000) = 6.5 := by norm_num
  have e2 : (1 : ℝ) + (0.03 - 5 / 1000) / (5 / 1000) = 6 := by norm_num
  rw [e1, e2] at h1
  have hlt : (6 : ℝ) ^ (2.5 : ℝ) < 6.5 ^ (2.5 : ℝ) :=
    Real.rpow_lt_rpow (by norm_num) (by norm_num) (by norm_num)
  have h6 : (0 : ℝ) < 6 ^ (2.5 : ℝ) := Real.rpow_pos_of_pos (by norm_num) _
  have hF : (0 : ℝ) < 1.17 ^ 2 * (Real.pi * (20 / 2000) ^ 2) / (2 * (4 * Real.pi * 1e-7)) := by
    positivity
  have := div_lt_div_of_pos_left hF h6 hlt
  linarith

/-- Witness of claim C12: the N35 disc 20 mm by 5 mm at the distance 0.03 m. -/
theorem ferro_force_magnitude_disc_witness :
    (calculateMagnetToFerroForce (exampleDisc (Vec3.ofReal 0 0 0) (Euler.ofReal 0 0 0))
        (examplePlate (Vec3.ofReal 0.03 0 0)) (num 0.03)).length
      = num (1.17 ^ 2 * (Real.pi * (20 / 2000) ^ 2) / (2 * (4 * Real.pi * 1e-7))
          / (1 + max (0.03 - 5 / 2000) 0.0001 / (5 / 1000)) ^ (2.5 : ℝ)) :=
  ferro_force_magnitude_disc
    (magnetParams "disc" "N35" (discDimensions 20 5) (Vec3.ofReal 0 0 0) (Euler.ofReal 0 0 0))
    (examplePlate (Vec3.ofReal 0.03 0 0)) 1.17 20 5 0.03 0 0 0 0.03 0 0 (by decide)
    (exampleDisc_grade _ _) rfl rfl (by norm_num) (by norm_num) (by norm_num) rfl rfl
    (by norm_num) (Or.inr (by norm_num))

theorem sphere_volume_pos {D : ℝ} (hD : 0 < D) : 0 < (4 / 3) * Real.pi * (D / 2000) ^ 3 := by
  have := Real.pi_pos
  positivity

theorem Magnet.getVolume_sphere (m : Magnet) (D : ℝ) (hs : m.shape = "sphere")
    (hD : m.dimensions.diameter = JSVal.number (num D)) :
    m.getVolume = num ((4 / 3) * Real.pi * (D / 2000) ^ 3) := by
  simp [Magnet.getVolume, hs, hD, JSVal.toNumber, PI]

/-- The force on a ferromagnetic object by a sphere of positive diameter whose
`thickness` is not set or is a positive number. -/
theorem ferro_force_sphere (p : MagnetParams) (f : FerromagneticObject) (br D c d : ℝ)
    (hs : (Magnet.new p).shape = "sphere")
    (hg : N_GRADES.lookup (Magnet.new p).strengthGrade = some br)
    (hD : (Magnet.new p).dimensions.diameter = JSVal.number (num D))
    (ht : ((Magnet.new p).dimensions.thickness = JSVal.undefined ∧ c = D) ∨
      (Magnet.new p).dimensions.thickness = JSVal.number (num c))
    (hDpos : 0 < D) (hcpos : 0 < c) :
    calculateMagnetToFerroForce (Magnet.new p) f (num d) =
      (Vec3.subVectors (Magnet.new p).position f.position).normalize.multiplyScalar
        (num (ferroMagnitude br (Real.pi * (D / 2000) ^ 2) c (if d < 1e-6 then 1e-6 else d))) := by
  have hbr := N_GRADES_lookup_pos hg
  have hBr : (Magnet.new p).Br = JSVal.number (num br) := by
    rw [Magnet.new_Br, N_GRADES_get_of_lookup hg]
  apply ferro_force_form _ _ br D c d (Or.inr hs) hBr hD _ _ hcpos
  · exact Magnet.moment_length_not_zero _ _ br
      (Magnet.getVolume_sphere _ D hs hD) (ne_of_gt (sphere_volume_pos hDpos))
      hBr (ne_of_gt hbr) (Magnet.new_magnetizationDirection p)
  · rcases ht with ⟨ht, hc⟩ | ht
    · rw [ht, hD, hc]
      simp only [JSVal.toNumber, JSNum.nan_div,
        JSNum.num_div_num_of_ne _ (show (2000 : ℝ) ≠ 0 by norm_num)]
      exact orElse_nan_left _
    · rw [ht, hD]
      simp only [JSVal.toNumber, JSNum.num_div_num_of_ne _ (show (2000 : ℝ) ≠ 0 by norm_num)]
      exact orElse_num_left _ (by positivity)
  · rcases ht with ⟨ht, hc⟩ | ht
    · rw [ht, hD, hc]
      simp only [JSVal.toNumber, JSNum.nan_div,
        JSNum.num_div_num_of_ne _ (show (1000 : ℝ) ≠ 0 by norm_num)]
      exact orElse_nan_left _
    · rw [ht, hD]
      simp only [JSVal.toNumber, JSNum.num_div_num_of_ne _ (show (1000 : ℝ) ≠ 0 by norm_num)]
      exact orElse_num_left _ (by positivity)

/-- Claim C13: for a disc (positive diameter and thickness) or a sphere (positive
diameter; `thickness` not set, or positive) of recognised grade, a
ferromagnetic object at another position and every numeric distance argument,
in particular every positive one, the force has a positive dot product with the
vector from the ferromagnetic object to the magnet. -/
theorem ferro_force_attractive (p : MagnetParams) (f : FerromagneticObject)
    (br D c d x y z x' y' z' : ℝ)
    (hg : N_GRADES.lookup (Magnet.new p).strengthGrade = some br)
    (hD : (Magnet.new p).dimensions.diameter = JSVal.number (num D))
    (hshape : ((Magnet.new p).shape = "disc" ∧
        (Magnet.new p).dimensions.thickness = JSVal.number (num c)) ∨
      ((Magnet.new p).shape = "sphere" ∧
        (((Magnet.new p).dimensions.thickness = JSVal.undefined ∧ c = D) ∨
          (Magnet.new p).dimensions.thickness = JSVal.number (num c))))
    (hDpos : 0 < D) (hcpos : 0 < c)
    (hpm : (Magnet.new p).position = Vec3.ofReal x y z)
    (hpf : f.position = Vec3.ofReal x' y' z')
    (hne : ¬ (x = x' ∧ y = y' ∧ z = z')) :
    JSNum.gt ((calculateMagnetToFerroForce (Magnet.new p) f (num d)).dot
      (Vec3.subVectors (Magnet.new p).position f.position)) (num 0) = true := by
  have hbr := N_GRADES_lookup_pos hg
  have hA : 0 < Real.pi * (D / 2000) ^ 2 := by have := Real.pi_pos; positivity
  have hform : calculateMagnetToFerroForce (Magnet.new p) f (num d) =
      (Vec3.subVectors (Magnet.new p).position f.position).normalize.multiplyScalar
        (num (ferroMagnitude br (Real.pi * (D / 2000) ^ 2) c
          (if d < 1e-6 then 1e-6 else d))) := by
    rcases hshape with ⟨hs, ht⟩ | ⟨hs, ht⟩
    · exact ferro_force_disc p f br D c d hs hg hD ht hDpos hcpos
    · exact ferro_force_sphere p f br D c d hs hg hD ht hDpos hcpos
  rw [hform, hpm, hpf, subVectors_ofReal,
    Vec3.normalize_scaled_dot _ _ _ _ (sub_ne_zero_triple hne)]
  simp only [JSNum.gt, JSNum.lt_num, decide_eq_true_eq]
  exact mul_pos (ferroMagnitude_pos hbr hA hcpos) (sqrt_sq_sum_pos (sub_ne_zero_triple hne))

/-- Witness of claim C13: the N35 disc and a steel plate 30 mm away. -/
theorem ferro_force_attractive_witness :
    JSNum.gt ((calculateMagnetToFerroForce (exampleDisc (Vec3.ofReal 0 0 0) (Euler.ofReal 0 0 0))
        (examplePlate (Vec3.ofReal 0.03 0 0)) (num 0.03)).dot
      (Vec3.subVectors (exampleDisc (Vec3.ofReal 0 0 0) (Euler.ofReal 0 0 0)).position
        (examplePlate (Vec3.ofReal 0.03 0 0)).position)) (num 0) = true :=
  ferro_force_attractive
    (magnetParams "disc" "N35" (discDimensions 20 5) (Vec3.ofReal 0 0 0) (Euler.ofReal 0 0 0))
    (examplePlate (Vec3.ofReal 0.03 0 0)) 1.17 20 5 0.03 0 0 0 0.03 0 0
    (exampleDisc_grade _ _) rfl (Or.inl ⟨by decide, rfl⟩) (by norm_num) (by norm_num) rfl rfl
    (by norm_num)

/-- Claim C14, the code at the failing input: for the N35 block 20 mm by 10 mm
by 5 mm, which has neither `thickness` nor `diameter`, the force is NaN in every
component, for every ferromagnetic object and every distance argument. -/
theorem ferro_force_block_nan (pos : Vec3) (f : FerromagneticObject) (d : JSNum) :
    calculateMagnetToFerroForce (exampleBlock pos) f d = ⟨nan, nan, nan⟩ := by
  have hV : (exampleBlock pos).getVolume = num ((20 / 1000) * (10 / 1000) * (5 / 1000)) := by
    simp [exampleBlock, Magnet.new, magnetParams, strOr, blockDimensions, Dimensions.unset,
      Magnet.getVolume, JSVal.toNumber]
  have hBr : (exampleBlock pos).Br = JSVal.number (num 1.17) := by
    simp [exampleBlock, Magnet.new, magnetParams, strOr, N_GRADES_get_N35]
  have hmag := Magnet.moment_length_not_zero (exampleBlock pos) _ 1.17 hV (by norm_num) hBr
    (by norm_num) (Magnet.new_magnetizationDirection _)
  have ht : (exampleBlock pos).dimensions.thickness = JSVal.undefined := rfl
  have hD : (exampleBlock pos).dimensions.diameter = JSVal.undefined := rfl
  simp only [calculateMagnetToFerroForce, hmag, ht, hD, JSVal.toNumber, JSNum.nan_div,
    orElse_nan_left]
  simp [JSNum.rpow, Vec3.multiplyScalar]

/-- Claim C20, the code at the failing input: for the N35 disc 20 mm by 5 mm the
magnitude at the distance 0.002 m (gap clamped to 1e-4) is strictly smaller
than at the larger distance 0.0025 m (gap 0). -/
theorem ferro_force_increases_at_contact :
    (0 : ℝ) < 0.002 ∧ (0.002 : ℝ) ≤ 0.0025 ∧
    JSNum.lt
      (calculateMagnetToFerroForce (exampleDisc (Vec3.ofReal 0 0 0) (Euler.ofReal 0 0 0))
        (examplePlate (Vec3.ofReal 0.03 0 0)) (num 0.002)).length
      (calculateMagnetToFerroForce (exampleDisc (Vec3.ofReal 0 0 0) (Euler.ofReal 0 0 0))
        (examplePlate (Vec3.ofReal 0.03 0 0)) (num 0.0025)).length = true := by
  have hpi := Real.pi_pos
  have hA : 0 < Real.pi * ((20 : ℝ) / 2000) ^ 2 := by positivity
  have hlen : ∀ d : ℝ, 1e-6 ≤ d →
      (calculateMagnetToFerroForce (exampleDisc (Vec3.ofReal 0 0 0) (Euler.ofReal 0 0 0))
        (examplePlate (Vec3.ofReal 0.03 0 0)) (num d)).length
      = num (ferroMagnitude 1.17 (Real.pi * (20 / 2000) ^ 2) 5 d) := by
    intro d hd
    rw [exampleDisc, ferro_force_disc _ _ 1.17 20 5 d (by decide) (exampleDisc_grade _ _)
      rfl rfl (by norm_num) (by norm_num), ← exampleDisc, exampleDisc_position,
      examplePlate_position, subVectors_ofReal,
      Vec3.normalize_scaled_length _ _ _ _ (by norm_num),
      abs_of_pos (ferroMagnitude_pos (by norm_num) hA (by norm_num)),
      if_neg (not_lt.mpr hd)]
  refine ⟨by norm_num, by norm_num, ?_⟩
  rw [hlen 0.002 (by norm_num), hlen 0.0025 (by norm_num)]
  simp only [JSNum.lt_num, decide_eq_true_eq, ferroMagnitude]
  have g1 : ferroGap 5 0.002 = 0.0001 := by
    unfold ferroGap; rw [if_pos (by norm_num)]
  have g2 : ferroGap 5 0.0025 = 0 := by
    unfold ferroGap; rw [if_neg (by norm_num)]; norm_num
  rw [g1, g2]
  have e1 : (1 : ℝ) + 0.0001 / (5 / 1000) = 1.02 := by norm_num
  have e2 : (1 : ℝ) + 0 / (5 / 1000) = 1 := by norm_num
  rw [e1, e2, Real.one_rpow]
  have h1 : (1 : ℝ) < 1.02 ^ (2.5 : ℝ) := Real.one_lt_rpow (by norm_num) (by norm_num)
  have hF : (0 : ℝ) < 1.17 ^ 2 * (Real.pi * (20 / 2000) ^ 2) / (2 * (4 * Real.pi * 1e-7)) := by
    positivity
  exact div_lt_div_of_pos_left hF one_pos h1


/-! ## Missing dimension fields -/

/-- Claim C11, the code at the failing input: for the N35 ring configured as the
user interface configures it (no `diameter`), `getVolume()` is NaN, the moment
vector is NaN in every component, and the dipole-dipole force with an N35 disc
30 mm away is NaN in every component, with the ring as either argument. -/
theorem ring_without_diameter_nan :
    (exampleRing (Vec3.ofReal 0.03 0 0)).getVolume = nan ∧
    (exampleRing (Vec3.ofReal 0.03 0 0)).getMagneticMomentVector = ⟨nan, nan, nan⟩ ∧
    calculateDipoleDipoleForce (exampleDisc (Vec3.ofReal 0 0 0) (Euler.ofReal 0 0 0))
      (exampleRing (Vec3.ofReal 0.03 0 0)) = ⟨nan, nan, nan⟩ ∧
    calculateDipoleDipoleForce (exampleRing (Vec3.ofReal 0.03 0 0))
      (exampleDisc (Vec3.ofReal 0 0 0) (Euler.ofReal 0 0 0)) = ⟨nan, nan, nan⟩ := by
  refine ⟨exampleRing_volume _, exampleRing_moment _, ?_, ?_⟩
  · have hv : Vec3.subVectors (exampleRing (Vec3.ofReal 0.03 0 0)).position
        (exampleDisc (Vec3.ofReal 0 0 0) (Euler.ofReal 0 0 0)).position
        = Vec3.ofReal 0.03 0 0 := by
      simp [exampleRing, exampleDisc, Magnet.new, magnetParams, Vec3.subVectors, Vec3.ofReal]
    rw [calculateDipoleDipoleForce_unit_form _ _ 0.03 0 0 hv
      (by rw [sqrt_axis_x (by norm_num)]; norm_num), exampleRing_moment, forceBracket_nan_right]
  · have hv : Vec3.subVectors (exampleDisc (Vec3.ofReal 0 0 0) (Euler.ofReal 0 0 0)).position
        (exampleRing (Vec3.ofReal 0.03 0 0)).position = Vec3.ofReal (-0.03) 0 0 := by
      simp [exampleRing, exampleDisc, Magnet.new, magnetParams, Vec3.subVectors, Vec3.ofReal]
    have hs : Real.sqrt ((-0.03) * (-0.03) + 0 * 0 + 0 * 0) = 0.03 := by
      have : ((-0.03 : ℝ)) * (-0.03) + 0 * 0 + 0 * 0 = 0.03 ^ 2 := by ring
      rw [this, Real.sqrt_sq (by norm_num)]
    rw [calculateDipoleDipoleForce_unit_form _ _ (-0.03) 0 0 hv (by rw [hs]; norm_num),
      exampleRing_moment, forceBracket_nan_left]

/-! ## Field lines -/

theorem startPoint_disc (m : Magnet) (D t a b c x y z : ℝ) (i : ℕ)
    (hD : m.dimensions.diameter = JSVal.number (num D))
    (ht : m.dimensions.thickness = JSVal.number (num t))
    (hDpos : 0 < D) (htpos : 0 < t)
    (hdir : m.magnetizationDirection = Vec3.ofReal 0 1 0)
    (ho : m.orientation = ⟨num a, num b, num c⟩)
    (hp : m.position = Vec3.ofReal x y z) :
    startPoint m i = Vec3.ofReal (x + (rotateXYZ a b c (localSeed D t i)).1)
      (y + (rotateXYZ a b c (localSeed D t i)).2.1)
      (z + (rotateXYZ a b c (localSeed D t i)).2.2) := by
  have h1 : JSNum.orElse (JSNum.orElse (m.dimensions.diameter.toNumber / num 2000)
      (m.dimensions.width.toNumber / num 2000)) (num 0.01) = num (D / 2000) := by
    rw [hD]
    simp only [JSVal.toNumber, JSNum.num_div_num_of_ne _ (show (2000 : ℝ) ≠ 0 by norm_num)]
    rw [orElse_num_left _ (by positivity), orElse_num_left _ (by positivity)]
  have h2 : JSNum.orElse (JSNum.orElse (m.dimensions.thickness.toNumber / num 2000)
      (m.dimensions.height.toNumber / num 2000)) (num 0.005) = num (t / 2000) := by
    rw [ht]
    simp only [JSVal.toNumber, JSNum.num_div_num_of_ne _ (show (2000 : ℝ) ≠ 0 by norm_num)]
    rw [orElse_num_left _ (by positivity), orElse_num_left _ (by positivity)]
  have h30 : ((30 : ℕ) : ℝ) ≠ 0 := by norm_num
  simp only [startPoint, h1, h2, hdir, ho, hp, lines, PI, Vec3.ofReal, JSNum.gt, JSNum.lt_num,
    JSNum.num_div_num_of_ne _ h30, JSNum.num_mul_num, JSNum.cos_num, JSNum.sin_num]
  have := Vec3.applyEuler_ofReal (D / 2000 * 0.6 * Real.cos ((i : ℝ) / ((30 : ℕ) : ℝ) * 2 * Real.pi))
    (t / 2000 * 1) (D / 2000 * 0.6 * Real.sin ((i : ℝ) / ((30 : ℕ) : ℝ) * 2 * Real.pi)) a b c
  simp only [Vec3.ofReal] at this
  simp only [zero_lt_one, decide_True, if_true, JSNum.num_mul_num, this, Vec3.add,
    JSNum.num_add_num, Vec3.mk.injEq, JSNum.num.injEq, localSeed]
  have e : (i : ℝ) / ((30 : ℕ) : ℝ) * 2 * Real.pi = 2 * Real.pi * i / 30 := by
    push_cast; ring
  rw [e]
  simp only [rotateXYZ, rotX, rotY, rotZ]
  refine ⟨?_, ?_, ?_⟩ <;> ring

theorem localSeed_sq (D t : ℝ) (i : ℕ) :
    (localSeed D t i).1 * (localSeed D t i).1 + (localSeed D t i).2.1 * (localSeed D t i).2.1
      + (localSeed D t i).2.2 * (localSeed D t i).2.2 = (0.3 * D / 1000) ^ 2 + (t / 2000) ^ 2 := by
  have h := Real.sin_sq_add_cos_sq (2 * Real.pi * i / 30)
  simp only [localSeed]
  linear_combination (0.6 * (D / 2000)) ^ 2 * h

theorem fieldLinePoints_head (objects : List SceneObject) (magnet1 : Magnet)
    (magnet2 : Option Magnet) (i : ℕ) :
    (fieldLinePoints objects magnet1 magnet2 i).head? = some (startPoint magnet1 i) := rfl

/-- Claim C16: for a first magnet with positive `diameter` `D` and `thickness`
`t` (in particular a disc), position `(x, y, z)` and orientation `(a, b, c)`,
the first point of line `i` is the position plus `Rx(a) Ry(b) Rz(c)` applied to
`(0.6 (D/2000) cos(2 pi i/30), t/2000, 0.6 (D/2000) sin(2 pi i/30))`, and it lies
at the distance `sqrt((0.3 D/1000)^2 + (t/2000)^2)` from the centre of the
magnet, whatever the orientation and the position. -/
theorem fieldLine_seed (objects : List SceneObject) (p : MagnetParams) (magnet2 : Option Magnet)
    (D t a b c x y z : ℝ) (i : ℕ)
    (hD : (Magnet.new p).dimensions.diameter = JSVal.number (num D))
    (ht : (Magnet.new p).dimensions.thickness = JSVal.number (num t))
    (hDpos : 0 < D) (htpos : 0 < t)
    (ho : (Magnet.new p).orientation = ⟨num a, num b, num c⟩)
    (hp : (Magnet.new p).position = Vec3.ofReal x y z) :
    (fieldLinePoints objects (Magnet.new p) magnet2 i).head?
        = some (Vec3.ofReal (x + (rotateXYZ a b c (localSeed D t i)).1)
            (y + (rotateXYZ a b c (localSeed D t i)).2.1)
            (z + (rotateXYZ a b c (localSeed D t i)).2.2)) ∧
      localSeed D t i = (0.6 * (D / 2000) * Real.cos (2 * Real.pi * i / 30), t / 2000,
        0.6 * (D / 2000) * Real.sin (2 * Real.pi * i / 30)) ∧
      (Vec3.subVectors (startPoint (Magnet.new p) i) (Magnet.new p).position).length
        = num (Real.sqrt ((0.3 * D / 1000) ^ 2 + (t / 2000) ^ 2)) := by
  have hsp := startPoint_disc (Magnet.new p) D t a b c x y z i hD ht hDpos htpos
    (Magnet.new_magnetizationDirection p) ho hp
  refine ⟨by rw [fieldLinePoints_head, hsp], rfl, ?_⟩
  rw [hsp, hp, subVectors_ofReal, Vec3.length_ofReal]
  congr 2
  have h := rotateXYZ_sq a b c (localSeed D t i)
  rw [localSeed_sq] at h
  rw [← h]
  ring

theorem example_seed_distance :
    (1e-4 : ℝ) ≤ Real.sqrt ((0.3 * 20 / 1000) ^ 2 + (5 / 2000) ^ 2) := by
  apply Real.le_sqrt_of_sq_le
  norm_num

/-- Witness of claim C16: line 7 of the N35 disc 20 mm by 5 mm at the origin. -/
theorem fieldLine_seed_witness :
    (Vec3.subVectors (startPoint (exampleDisc (Vec3.ofReal 0 0 0) (Euler.ofReal 0 0 0)) 7)
        (exampleDisc (Vec3.ofReal 0 0 0) (Euler.ofReal 0 0 0)).position).length
      = num (Real.sqrt ((0.3 * 20 / 1000) ^ 2 + (5 / 2000) ^ 2)) :=
  (fieldLine_seed [] (magnetParams "disc" "N35" (discDimensions 20 5) (Vec3.ofReal 0 0 0)
      (Euler.ofReal 0 0 0)) none 20 5 0 0 0 0 0 0 7 rfl rfl (by norm_num) (by norm_num)
    rfl rfl).2.2

/-- A pass of the `forEach` body that returns leaves the field as it was: the
one statement that adds to it comes after the read of `MU0`. -/
theorem addDipoleField_ok (pt B B' : Vec3) (o : SceneObject)
    (h : addDipoleField pt B o = Except.ok B') : B' = B := by
  cases o with
  | ferro f =>
    simp only [addDipoleField, Except.ok.injEq] at h
    exact h.symm
  | magnet m =>
    simp only [addDipoleField, SceneManager.MU0] at h
    split_ifs at h
    simp only [Except.ok.injEq] at h
    exact h.symm

theorem forEachObject_ok (pt : Vec3) (objects : List SceneObject) :
    ∀ B B' : Vec3, forEachObject pt B objects = Except.ok B' → B' = B := by
  induction objects with
  | nil =>
    intro B B' h
    simp only [forEachObject, Except.ok.injEq] at h
    exact h.symm
  | cons o os ih =>
    intro B B' h
    rw [forEachObject] at h
    cases ho : addDipoleField pt B o with
    | error e => rw [ho] at h; simp at h
    | ok B1 =>
      rw [ho] at h
      have h1 := addDipoleField_ok pt B B1 o ho
      have h2 := ih B1 B' h
      rw [h2, h1]

/-- Whenever `getBField` returns, it returns the zero vector. -/
theorem getBField_ok (objects : List SceneObject) (pt B : Vec3)
    (h : getBField objects pt = Except.ok B) : B = Vec3.zero :=
  forEachObject_ok pt objects Vec3.zero B h

theorem lengthSq_zero : Vec3.zero.lengthSq.strictEq (num 0) = true := by
  simp [Vec3.zero, Vec3.lengthSq]

/-- The inner loop never pushes a point: the first call of `getBField` throws
or returns the zero field. -/
theorem traceSteps_fst (objects : List SceneObject) (magnet2 : Option Magnet) (n : ℕ)
    (cur : Vec3) (tot : JSNum) : (traceSteps objects magnet2 n cur tot).1 = [] := by
  cases n with
  | zero => rfl
  | succ n =>
    rw [traceSteps]
    cases hB : getBField objects cur with
    | error e => rfl
    | ok B =>
      have := getBField_ok objects cur B hB
      subst this
      simp only [lengthSq_zero, if_true]

theorem fieldLinePoints_eq (objects : List SceneObject) (magnet1 : Magnet)
    (magnet2 : Option Magnet) (i : ℕ) :
    fieldLinePoints objects magnet1 magnet2 i = [startPoint magnet1 i] := by
  rw [fieldLinePoints, traceSteps_fst]

theorem drawLines_fst (objects : List SceneObject) (magnet1 : Magnet)
    (magnet2 : Option Magnet) (l : List ℕ) : (drawLines objects magnet1 magnet2 l).1 = [] := by
  induction l with
  | nil => rfl
  | cons i rest ih =>
    rw [drawLines]
    cases fieldLineError objects magnet1 magnet2 i with
    | some e => rfl
    | none =>
      simp only [fieldLinePoints_eq, List.length_singleton, gt_iff_lt, lt_self_iff_false,
        if_false]
      exact ih

/-- For every scene and every pair of magnets `drawFieldLines` adds no polyline. -/
theorem drawFieldLines_no_lines (objects : List SceneObject) (magnet1 : Magnet)
    (magnet2 : Option Magnet) : (drawFieldLines objects magnet1 magnet2).1 = [] :=
  drawLines_fst objects magnet1 magnet2 (List.range lines)

/-- A magnet at least 1e-4 m from the point makes the `forEach` body throw. -/
theorem addDipoleField_far (m : Magnet) (pt B : Vec3) (r1 r2 r3 : ℝ)
    (hv : Vec3.subVectors pt m.position = Vec3.ofReal r1 r2 r3)
    (hr : 1e-4 ≤ Real.sqrt (r1 * r1 + r2 * r2 + r3 * r3)) :
    addDipoleField pt B (SceneObject.magnet m)
      = Except.error (JSError.referenceError "MU0") := by
  have hlt : ¬ Real.sqrt (r1 * r1 + r2 * r2 + r3 * r3) < 1e-4 := not_lt.mpr hr
  simp only [addDipoleField, hv, Vec3.length_ofReal, JSNum.lt_num, hlt, decide_False,
    Bool.false_eq_true, if_false, SceneManager.MU0]

/-- A magnet less than 1e-4 m from the point is skipped. -/
theorem addDipoleField_near (m : Magnet) (pt B : Vec3) (r1 r2 r3 : ℝ)
    (hv : Vec3.subVectors pt m.position = Vec3.ofReal r1 r2 r3)
    (hr : Real.sqrt (r1 * r1 + r2 * r2 + r3 * r3) < 1e-4) :
    addDipoleField pt B (SceneObject.magnet m) = Except.ok B := by
  simp only [addDipoleField, hv, Vec3.length_ofReal, JSNum.lt_num, hr, decide_True, if_true]

theorem seed_offset (p : MagnetParams) (D t a b c x y z : ℝ) (i : ℕ)
    (hD : (Magnet.new p).dimensions.diameter = JSVal.number (num D))
    (ht : (Magnet.new p).dimensions.thickness = JSVal.number (num t))
    (hDpos : 0 < D) (htpos : 0 < t)
    (ho : (Magnet.new p).orientation = ⟨num a, num b, num c⟩)
    (hp : (Magnet.new p).position = Vec3.ofReal x y z) :
    Vec3.subVectors (startPoint (Magnet.new p) i) (Magnet.new p).position
        = Vec3.ofReal (rotateXYZ a b c (localSeed D t i)).1
          (rotateXYZ a b c (localSeed D t i)).2.1 (rotateXYZ a b c (localSeed D t i)).2.2 ∧
      Real.sqrt ((rotateXYZ a b c (localSeed D t i)).1 * (rotateXYZ a b c (localSeed D t i)).1
        + (rotateXYZ a b c (localSeed D t i)).2.1 * (rotateXYZ a b c (localSeed D t i)).2.1
        + (rotateXYZ a b c (localSeed D t i)).2.2 * (rotateXYZ a b c (localSeed D t i)).2.2)
        = Real.sqrt ((0.3 * D / 1000) ^ 2 + (t / 2000) ^ 2) := by
  have hsp := startPoint_disc (Magnet.new p) D t a b c x y z i hD ht hDpos htpos
    (Magnet.new_magnetizationDirection p) ho hp
  constructor
  · rw [hsp, hp, subVectors_ofReal]
    simp [Vec3.ofReal]
  · rw [rotateXYZ_sq, localSeed_sq]

/-- In a scene that holds a single magnet of positive diameter and thickness
whose start points are at least 1e-4 m from its centre, `drawFieldLines` throws
at the first field evaluation of line 0 and adds no polyline. -/
theorem single_disc_throws (p : MagnetParams) (magnet2 : Option Magnet)
    (D t a b c x y z : ℝ)
    (hD : (Magnet.new p).dimensions.diameter = JSVal.number (num D))
    (ht : (Magnet.new p).dimensions.thickness = JSVal.number (num t))
    (hDpos : 0 < D) (htpos : 0 < t)
    (ho : (Magnet.new p).orientation = ⟨num a, num b, num c⟩)
    (hp : (Magnet.new p).position = Vec3.ofReal x y z)
    (hseed : 1e-4 ≤ Real.sqrt ((0.3 * D / 1000) ^ 2 + (t / 2000) ^ 2)) :
    drawFieldLines [SceneObject.magnet (Magnet.new p)] (Magnet.new p) magnet2
      = ([], some (JSError.referenceError "MU0")) := by
  obtain ⟨hv, hlen⟩ := seed_offset p D t a b c x y z 0 hD ht hDpos htpos ho hp
  have hfar := addDipoleField_far (Magnet.new p) (startPoint (Magnet.new p) 0) Vec3.zero _ _ _ hv
    (by rw [hlen]; exact hseed)
  have hB : getBField [SceneObject.magnet (Magnet.new p)] (startPoint (Magnet.new p) 0)
      = Except.error (JSError.referenceError "MU0") := by
    rw [getBField, forEachObject, hfar]
  have herr : fieldLineError [SceneObject.magnet (Magnet.new p)] (Magnet.new p) magnet2 0
      = some (JSError.referenceError "MU0") := by
    rw [fieldLineError]
    show (traceSteps _ magnet2 (49 + 1) _ _).2 = _
    rw [traceSteps, hB]
  show drawLines _ _ _ (List.range 30) = _
  rw [show List.range 30 = 0 :: (List.range 29).map Nat.succ from by decide, drawLines, herr]

/-- Claim C15, evaluated on the code: for the scene that holds the N35 disc of
diameter 20 mm and thickness 5 mm at the origin (seed distance 0.0065 m) and no
second magnet, `drawFieldLines(magnet1, null)` throws `ReferenceError` for
`MU0` and adds no polyline, not 30. -/
theorem single_disc_no_polyline :
    drawFieldLines [SceneObject.magnet (exampleDisc (Vec3.ofReal 0 0 0) (Euler.ofReal 0 0 0))]
        (exampleDisc (Vec3.ofReal 0 0 0) (Euler.ofReal 0 0 0)) none
      = ([], some (JSError.referenceError "MU0")) :=
  single_disc_throws
    (magnetParams "disc" "N35" (discDimensions 20 5) (Vec3.ofReal 0 0 0) (Euler.ofReal 0 0 0))
    none 20 5 0 0 0 0 0 0 rfl rfl (by norm_num) (by norm_num) rfl rfl example_seed_distance

theorem exampleTinyDisc_field :
    getBField [SceneObject.magnet exampleTinyDisc] (startPoint exampleTinyDisc 0)
      = Except.ok (Vec3.ofReal 0 0 0) := by
  obtain ⟨hv, hlen⟩ := seed_offset
    (magnetParams "disc" "N35" (discDimensions 0.1 0.1) (Vec3.ofReal 0 0 0) (Euler.ofReal 0 0 0))
    0.1 0.1 0 0 0 0 0 0 0 rfl rfl (by norm_num) (by norm_num) rfl rfl
  have hlt : Real.sqrt ((0.3 * 0.1 / 1000) ^ 2 + (0.1 / 2000) ^ 2) < (1e-4 : ℝ) := by
    rw [Real.sqrt_lt' (by norm_num)]
    norm_num
  have hnear := addDipoleField_near exampleTinyDisc (startPoint exampleTinyDisc 0) Vec3.zero
    _ _ _ hv (by rw [hlen]; exact hlt)
  rw [getBField, forEachObject, hnear]
  rfl

/-- Claim C18: when the total field that `getBField` returns at the start point
of line `i` is the zero vector, the line keeps its start point only, its loop
ends without exception and no polyline is produced for it; and for every scene,
in particular when every magnet has a zero moment vector, `drawFieldLines` adds
no polyline at all. -/
theorem zero_field_seeds_dropped (objects : List SceneObject) (magnet1 : Magnet)
    (magnet2 : Option Magnet) :
    (∀ i, getBField objects (startPoint magnet1 i) = Except.ok (Vec3.ofReal 0 0 0) →
      fieldLinePoints objects magnet1 magnet2 i = [startPoint magnet1 i] ∧
      fieldLineError objects magnet1 magnet2 i = none ∧
      ∀ l ∈ (drawFieldLines objects magnet1 magnet2).1,
        l ≠ fieldLinePoints objects magnet1 magnet2 i) ∧
    (drawFieldLines objects magnet1 magnet2).1 = [] := by
  refine ⟨?_, drawFieldLines_no_lines objects magnet1 magnet2⟩
  intro i hB
  refine ⟨fieldLinePoints_eq objects magnet1 magnet2 i, ?_, ?_⟩
  · rw [fieldLineError]
    show (traceSteps objects magnet2 (49 + 1) _ _).2 = none
    rw [traceSteps, hB]
    simp [Vec3.lengthSq, Vec3.ofReal]
  · intro l hl
    rw [drawFieldLines_no_lines] at hl
    simp at hl

/-- Witness of claim C18: line 0 of the scene that holds one disc 0.1 mm by
0.1 mm, whose start points are nearer than 1e-4 m, and the scene that holds one
disc of thickness 0. -/
theorem zero_field_seeds_dropped_witness :
    getBField [SceneObject.magnet exampleTinyDisc] (startPoint exampleTinyDisc 0)
        = Except.ok (Vec3.ofReal 0 0 0) ∧
      fieldLinePoints [SceneObject.magnet exampleTinyDisc] exampleTinyDisc none 0
        = [startPoint exampleTinyDisc 0] ∧
      fieldLineError [SceneObject.magnet exampleTinyDisc] exampleTinyDisc none 0 = none ∧
      (drawFieldLines [SceneObject.magnet (exampleFlatDisc (Vec3.ofReal 0 0 0))]
        (exampleFlatDisc (Vec3.ofReal 0 0 0)) none).1 = [] :=
  ⟨exampleTinyDisc_field,
    ((zero_field_seeds_dropped [SceneObject.magnet exampleTinyDisc] exampleTinyDisc none).1 0
      exampleTinyDisc_field).1,
    ((zero_field_seeds_dropped [SceneObject.magnet exampleTinyDisc] exampleTinyDisc none).1 0
      exampleTinyDisc_field).2.1,
    (zero_field_seeds_dropped [SceneObject.magnet (exampleFlatDisc (Vec3.ofReal 0 0 0))]
      (exampleFlatDisc (Vec3.ofReal 0 0 0)) none).2⟩

theorem exampleFlatDisc_startPoint :
    startPoint (exampleFlatDisc (Vec3.ofReal 0 0 0)) 0 = Vec3.ofReal 0.006 0.005 0 := by
  have h1 : JSNum.orElse (JSNum.orElse
      ((exampleFlatDisc (Vec3.ofReal 0 0 0)).dimensions.diameter.toNumber / num 2000)
      ((exampleFlatDisc (Vec3.ofReal 0 0 0)).dimensions.width.toNumber / num 2000)) (num 0.01)
      = num (20 / 2000) := by
    simp [exampleFlatDisc, Magnet.new, magnetParams, discDimensions, Dimensions.unset,
      JSVal.toNumber, JSNum.orElse]
  have h2 : JSNum.orElse (JSNum.orElse
      ((exampleFlatDisc (Vec3.ofReal 0 0 0)).dimensions.thickness.toNumber / num 2000)
      ((exampleFlatDisc (Vec3.ofReal 0 0 0)).dimensions.height.toNumber / num 2000)) (num 0.005)
      = num 0.005 := by
    simp [exampleFlatDisc, Magnet.new, magnetParams, discDimensions, Dimensions.unset,
      JSVal.toNumber, JSNum.orElse]
  have ho : (exampleFlatDisc (Vec3.ofReal 0 0 0)).orientation = ⟨num 0, num 0, num 0⟩ := rfl
  have hp : (exampleFlatDisc (Vec3.ofReal 0 0 0)).position = Vec3.ofReal 0 0 0 := rfl
  have hdir : (exampleFlatDisc (Vec3.ofReal 0 0 0)).magnetizationDirection
      = Vec3.ofReal 0 1 0 := rfl
  have h30 : ((30 : ℕ) : ℝ) ≠ 0 := by norm_num
  generalize exampleFlatDisc (Vec3.ofReal 0 0 0) = m at h1 h2 ho hp hdir ⊢
  simp only [startPoint, h1, h2, hdir, ho, hp, lines, PI, Vec3.ofReal, JSNum.gt, JSNum.lt_num,
    JSNum.num_div_num_of_ne _ h30, JSNum.num_mul_num, JSNum.cos_num, JSNum.sin_num]
  have := Vec3.applyEuler_ofReal
    (20 / 2000 * 0.6 * Real.cos (((0 : ℕ) : ℝ) / ((30 : ℕ) : ℝ) * 2 * Real.pi))
    (0.005 * 1) (20 / 2000 * 0.6 * Real.sin (((0 : ℕ) : ℝ) / ((30 : ℕ) : ℝ) * 2 * Real.pi)) 0 0 0
  simp only [Vec3.ofReal] at this
  simp only [zero_lt_one, decide_True, if_true, JSNum.num_mul_num, this, Vec3.add,
    JSNum.num_add_num, Vec3.mk.injEq, JSNum.num.injEq]
  simp only [rotateXYZ, rotX, rotY, rotZ, Nat.cast_zero, zero_div, zero_mul, Real.cos_zero,
    Real.sin_zero]
  refine ⟨?_, ?_, ?_⟩ <;> norm_num

/-- The scene that holds one disc of thickness 0 (a zero moment): the start
point of line 0 is 0.0078 m from the centre, `getBField` throws there, and
`drawFieldLines` ends by that exception with no polyline added. -/
theorem exampleFlatDisc_throws :
    drawFieldLines [SceneObject.magnet (exampleFlatDisc (Vec3.ofReal 0 0 0))]
        (exampleFlatDisc (Vec3.ofReal 0 0 0)) none
      = ([], some (JSError.referenceError "MU0")) := by
  have hv : Vec3.subVectors (startPoint (exampleFlatDisc (Vec3.ofReal 0 0 0)) 0)
      (exampleFlatDisc (Vec3.ofReal 0 0 0)).position = Vec3.ofReal 0.006 0.005 0 := by
    rw [exampleFlatDisc_startPoint]
    show Vec3.subVectors (Vec3.ofReal 0.006 0.005 0) (Vec3.ofReal 0 0 0) = _
    rw [subVectors_ofReal]; simp [Vec3.ofReal]
  have hr : (1e-4 : ℝ) ≤ Real.sqrt (0.006 * 0.006 + 0.005 * 0.005 + 0 * 0) := by
    apply Real.le_sqrt_of_sq_le
    norm_num
  have hfar := addDipoleField_far (exampleFlatDisc (Vec3.ofReal 0 0 0))
    (startPoint (exampleFlatDisc (Vec3.ofReal 0 0 0)) 0) Vec3.zero _ _ _ hv hr
  have hB : getBField [SceneObject.magnet (exampleFlatDisc (Vec3.ofReal 0 0 0))]
      (startPoint (exampleFlatDisc (Vec3.ofReal 0 0 0)) 0)
      = Except.error (JSError.referenceError "MU0") := by
    rw [getBField, forEachObject, hfar]
  have herr : fieldLineError [SceneObject.magnet (exampleFlatDisc (Vec3.ofReal 0 0 0))]
      (exampleFlatDisc (Vec3.ofReal 0 0 0)) none 0
      = some (JSError.referenceError "MU0") := by
    rw [fieldLineError]
    show (traceSteps _ none (49 + 1) _ _).2 = _
    rw [traceSteps, hB]
  show drawLines _ _ _ (List.range 30) = _
  rw [show List.range 30 = 0 :: (List.range 29).map Nat.succ from by decide, drawLines, herr]

/-! ## Attraction or repulsion: the arrow and the text -/

/-- For all arguments `updateForceDisplay` throws at `new THREE.Vector3()` and
writes no force-type text. -/
theorem updateForceDisplay_throws (forceVector : Vec3) (obj1 obj2 : SceneObject) :
    updateForceDisplay forceVector obj1 obj2
      = Except.error (JSError.referenceError "THREE") := rfl

/-- Claim C21, evaluated on the code: for two N35 discs (20 mm by 5 mm, no
rotation) at (0,0,0) and (0,0.03,0) and the force `F` that
`calculateDipoleDipoleForce` returns for them, `displayForce(magnet2, F)`
computes `isAttraction = true`, while `updateForceDisplay(F, magnet1, magnet2)`
throws `ReferenceError` for `THREE` and writes no force-type text, so it does
not show "Attraction". -/
theorem classifiers_disagree :
    displayForce
        [SceneObject.magnet (exampleDisc (Vec3.ofReal 0 0 0) (Euler.ofReal 0 0 0)),
         SceneObject.magnet (exampleDisc (Vec3.ofReal 0 0.03 0) (Euler.ofReal 0 0 0))] 1
        (calculateDipoleDipoleForce (exampleDisc (Vec3.ofReal 0 0 0) (Euler.ofReal 0 0 0))
          (exampleDisc (Vec3.ofReal 0 0.03 0) (Euler.ofReal 0 0 0)))
      = some true ∧
    updateForceDisplay
        (calculateDipoleDipoleForce (exampleDisc (Vec3.ofReal 0 0 0) (Euler.ofReal 0 0 0))
          (exampleDisc (Vec3.ofReal 0 0.03 0) (Euler.ofReal 0 0 0)))
        (SceneObject.magnet (exampleDisc (Vec3.ofReal 0 0 0) (Euler.ofReal 0 0 0)))
        (SceneObject.magnet (exampleDisc (Vec3.ofReal 0 0.03 0) (Euler.ofReal 0 0 0)))
      = Except.error (JSError.referenceError "THREE") ∧
    updateForceDisplay
        (calculateDipoleDipoleForce (exampleDisc (Vec3.ofReal 0 0 0) (Euler.ofReal 0 0 0))
          (exampleDisc (Vec3.ofReal 0 0.03 0) (Euler.ofReal 0 0 0)))
        (SceneObject.magnet (exampleDisc (Vec3.ofReal 0 0 0) (Euler.ofReal 0 0 0)))
        (SceneObject.magnet (exampleDisc (Vec3.ofReal 0 0.03 0) (Euler.ofReal 0 0 0)))
      ≠ Except.ok "Attraction" := by
  have hF := force_of_example_pair _ _ (exampleDisc_moment (Vec3.ofReal 0 0 0))
    (exampleDisc_moment (Vec3.ofReal 0 0.03 0)) example_separation
  have hs' : Real.sqrt (0 * 0 + (-0.03) * (-0.03) + 0 * 0) = 0.03 := by
    have : (0 : ℝ) * 0 + (-0.03) * (-0.03) + 0 * 0 = 0.03 ^ 2 := by ring
    rw [this, Real.sqrt_sq (by norm_num)]
  have hn2 := Vec3.normalize_ofReal 0 (-0.03) 0 (by rw [hs']; norm_num)
  rw [hs'] at hn2
  have hv2 : Vec3.subVectors (exampleDisc (Vec3.ofReal 0 0 0) (Euler.ofReal 0 0 0)).position
      (exampleDisc (Vec3.ofReal 0 0.03 0) (Euler.ofReal 0 0 0)).position
      = Vec3.ofReal 0 (-0.03) 0 := by
    simp [exampleDisc, Magnet.new, magnetParams, Vec3.subVectors, Vec3.ofReal]
  rw [hF]
  refine ⟨?_, rfl, ?_⟩
  · have hfind : findOther
        [SceneObject.magnet (exampleDisc (Vec3.ofReal 0 0 0) (Euler.ofReal 0 0 0)),
         SceneObject.magnet (exampleDisc (Vec3.ofReal 0 0.03 0) (Euler.ofReal 0 0 0))] 1
        = some (SceneObject.magnet (exampleDisc (Vec3.ofReal 0 0 0) (Euler.ofReal 0 0 0))) := by
      simp [findOther, List.enum, List.enumFrom]
    have hl : (Vec3.ofReal 0 (-1.584375) 0).lengthSq.strictEq (num 0) = false := by
      simp [Vec3.lengthSq, Vec3.ofReal]
      norm_num
    simp only [displayForce, hfind, hl, List.getElem?_cons_succ, List.getElem?_cons_zero,
      SceneObject.position, hv2, hn2, Bool.false_eq_true, if_false]
    simp [Vec3.dot, Vec3.ofReal, JSNum.gt]
    norm_num
  · rw [updateForceDisplay_throws]
    simp

/-! ## The maximum length of a field line -/

/-- With at most 50 iterations left after `k` steps of 0.002, the loop never
leaves through the test `totalDist > maxDist`. -/
theorem traceSteps_eq_noMaxDist (objects : List SceneObject) (magnet2 : Option Magnet) (n : ℕ) :
    ∀ (k : ℕ) (cur : Vec3), n + k ≤ 50 →
      traceSteps objects magnet2 n cur (num (0.002 * k))
        = traceStepsNoMaxDist objects magnet2 n cur := by
  induction n with
  | zero => intro k cur _; simp [traceSteps, traceStepsNoMaxDist]
  | succ n ih =>
    intro k cur hk
    have hk' : n + (k + 1) ≤ 50 := by omega
    have hstep : num (0.002 * (k : ℝ)) + stepSize = num (0.002 * ((k + 1 : ℕ) : ℝ)) := by
      simp only [stepSize, JSNum.num_add_num]
      congr 1
      push_cast
      ring
    have hle : ((k + 1 : ℕ) : ℝ) ≤ 50 := by
      have : k + 1 ≤ 50 := by omega
      exact_mod_cast this
    have hgt : JSNum.gt (num (0.002 * ((k + 1 : ℕ) : ℝ))) maxDist = false := by
      simp only [JSNum.gt, maxDist, JSNum.lt_num, decide_eq_false_iff_not, not_lt]
      linarith
    rw [traceSteps, traceStepsNoMaxDist, hstep]
    cases getBField objects cur with
    | error e => rfl
    | ok B =>
      simp only [hgt, Bool.false_eq_true, if_false]
      cases magnet2 with
      | none => simp only [ih (k + 1) _ hk']
      | some m2 => simp only [ih (k + 1) _ hk']

/-- With at most 50 iterations left after `k` steps of 0.002, every value that
`totalDist` takes is a number not above 0.1. -/
theorem traceTotalDist_le (objects : List SceneObject) (magnet2 : Option Magnet) (n : ℕ) :
    ∀ (k : ℕ) (cur : Vec3), n + k ≤ 50 →
      ∀ d ∈ traceTotalDist objects magnet2 n cur (num (0.002 * k)),
        ∃ x : ℝ, d = num x ∧ x ≤ 0.1 := by
  induction n with
  | zero => intro k cur _ d hd; simp [traceTotalDist] at hd
  | succ n ih =>
    intro k cur hk d hd
    have hk' : n + (k + 1) ≤ 50 := by omega
    have hstep : num (0.002 * (k : ℝ)) + stepSize = num (0.002 * ((k + 1 : ℕ) : ℝ)) := by
      simp only [stepSize, JSNum.num_add_num]
      congr 1
      push_cast
      ring
    have hle : ((k + 1 : ℕ) : ℝ) ≤ 50 := by
      have : k + 1 ≤ 50 := by omega
      exact_mod_cast this
    have hx : (0.002 : ℝ) * ((k + 1 : ℕ) : ℝ) ≤ 0.1 := by linarith
    have hgt : JSNum.gt (num (0.002 * ((k + 1 : ℕ) : ℝ))) maxDist = false := by
      simp only [JSNum.gt, maxDist, JSNum.lt_num, decide_eq_false_iff_not, not_lt]
      linarith
    rw [traceTotalDist, hstep] at hd
    cases hg : getBField objects cur with
    | error e => rw [hg] at hd; simp at hd
    | ok B =>
      rw [hg] at hd
      simp only [hgt, Bool.false_eq_true, if_false] at hd
      by_cases hB : B.lengthSq.strictEq (num 0) = true
      · simp [hB] at hd
      · have hB' : B.lengthSq.strictEq (num 0) = false := by simpa using hB
        simp only [hB', Bool.false_eq_true, if_false] at hd
        cases magnet2 with
        | none =>
          simp only [List.mem_cons] at hd
          rcases hd with hd | hd
          · exact ⟨_, hd, hx⟩
          · exact ih (k + 1) _ hk' d hd
        | some m2 =>
          simp only at hd
          split_ifs at hd with hc
          · simp only [List.mem_singleton] at hd
            exact ⟨_, hd, hx⟩
          · simp only [List.mem_cons] at hd
            rcases hd with hd | hd
            · exact ⟨_, hd, hx⟩
            · exact ih (k + 1) _ hk' d hd

/-- Claim C22: in `drawFieldLines`, for every scene, both magnets and every
line `i`, each value that `totalDist` takes at the test `totalDist > maxDist`
is a number not above 0.1 = 50 * 0.002, so the test is false there
(`maxDist` is 0.3); and the points of the line, and the exception that ends its
loop if one does, are those of the loop without that test, which ends only
through a zero field, the 50 segments, or the termination radius of the second
magnet. -/
theorem maxDist_never_exceeded (objects : List SceneObject) (magnet1 : Magnet)
    (magnet2 : Option Magnet) (i : ℕ) :
    (∀ d ∈ traceTotalDist objects magnet2 segments (startPoint magnet1 i) (num 0),
        ∃ x : ℝ, d = num x ∧ x ≤ 0.1 ∧ JSNum.gt d maxDist = false) ∧
      fieldLinePoints objects magnet1 magnet2 i
        = startPoint magnet1 i ::
          (traceStepsNoMaxDist objects magnet2 segments (startPoint magnet1 i)).1 ∧
      fieldLineError objects magnet1 magnet2 i
        = (traceStepsNoMaxDist objects magnet2 segments (startPoint magnet1 i)).2 := by
  have h2 := traceSteps_eq_noMaxDist objects magnet2 segments 0 (startPoint magnet1 i)
    (by simp [segments])
  simp only [Nat.cast_zero, mul_zero] at h2
  refine ⟨?_, ?_, ?_⟩
  · intro d hd
    have h := traceTotalDist_le objects magnet2 segments 0 (startPoint magnet1 i)
      (by simp [segments])
    simp only [Nat.cast_zero, mul_zero] at h
    obtain ⟨x, hx, hle⟩ := h d hd
    refine ⟨x, hx, hle, ?_⟩
    rw [hx]
    simp only [JSNum.gt, maxDist, JSNum.lt_num, decide_eq_false_iff_not, not_lt]
    linarith
  · rw [fieldLinePoints, h2]
  · rw [fieldLineError, h2]

end

end MagnetTheory
